import Mathlib

/-!
Verification development for the Antigravity-Manager OpenAI-compatible proxy,
embedding `src/src-tauri/src/proxy/handlers/openai.rs` (the request handlers
for chat completions, legacy/Codex completions, and image generation) as pure
Lean functions.  JSON documents (`serde_json::Value`) are modelled by the
`Value` inductive below; object fields are association lists with first-match
lookup (the key order of the underlying serde map is immaterial to every
property proved here).  Collaborator modules that are not part of the provided
source tree (token manager, translators, session manager, request-config
resolver) are either universally quantified parameters (`Collab`) or are
modelled from the specification where control flow depends on them, as marked
in the doc comments.
-/

/-- JSON values, modelling `serde_json::Value`.  Objects are association
lists; numbers are integers (no claim in scope involves non-integral
numerals). -/
inductive Value where
  | null : Value
  | bool (b : Bool) : Value
  | num (n : Int) : Value
  | str (s : String) : Value
  | arr (elems : List Value) : Value
  | obj (fields : List (String × Value)) : Value

/-- Map insert (replace the first binding of the key, else append), the
association-list form of `serde_json::Map::insert`. -/
def insertField (k : String) (v : Value) : List (String × Value) → List (String × Value)
  | [] => [(k, v)]
  | (k1, v1) :: t => if k1 = k then (k, v) :: t else (k1, v1) :: insertField k v t

/-- Map removal (`serde_json::Map::remove`): drop every binding of the key. -/
def removeField (k : String) : List (String × Value) → List (String × Value)
  | [] => []
  | (k1, v1) :: t => if k1 = k then removeField k t else (k1, v1) :: removeField k t

/-- First-match association-list lookup (`serde_json::Map::get`). -/
def lookupField (k : String) : List (String × Value) → Option Value
  | [] => none
  | (k1, v1) :: t => if k1 = k then some v1 else lookupField k t

/-- `Value::get(&str)`: field access, `none` on non-objects. -/
def Value.get? : Value → String → Option Value
  | .obj fs, k => lookupField k fs
  | _, _ => none

/-- `Value::get(usize)`: array index access. -/
def Value.getIdx? : Value → Nat → Option Value
  | .arr xs, i => xs.get? i
  | _, _ => none

def Value.asStr : Value → Option String
  | .str s => some s
  | _ => none

def Value.asArr : Value → Option (List Value)
  | .arr xs => some xs
  | _ => none

def Value.asBool : Value → Option Bool
  | .bool b => some b
  | _ => none

/-- `Value::as_u64` restricted to the integer model: non-negative only. -/
def Value.asU64 : Value → Option Nat
  | .num n => if 0 ≤ n then some n.toNat else none
  | _ => none

def Value.isString : Value → Bool
  | .str _ => true
  | _ => false

def Value.asObj : Value → Option (List (String × Value))
  | .obj fs => some fs
  | _ => none

/-- `body[key] = v` / `obj.insert(key, v)`; a no-op on non-objects (the source
always guards with `as_object_mut`). -/
def Value.objInsert : Value → String → Value → Value
  | .obj fs, k, v => .obj (insertField k v fs)
  | w, _, _ => w

/-- `obj.remove(key)`; a no-op on non-objects. -/
def Value.objRemove : Value → String → Value
  | .obj fs, k => .obj (removeField k fs)
  | w, _ => w

def hexDigitChar (n : Nat) : String :=
  if n = 0 then "0" else if n = 1 then "1" else if n = 2 then "2"
  else if n = 3 then "3" else if n = 4 then "4" else if n = 5 then "5"
  else if n = 6 then "6" else if n = 7 then "7" else if n = 8 then "8"
  else if n = 9 then "9" else if n = 10 then "a" else if n = 11 then "b"
  else if n = 12 then "c" else if n = 13 then "d" else if n = 14 then "e"
  else "f"

/-- JSON string escaping as performed by `serde_json` (short escapes for
quote, backslash and the usual control characters, `\u00XX` for the rest of
the C0 range). -/
def escapeChar (c : Char) : String :=
  if c = '"' then "\\\""
  else if c = '\\' then "\\\\"
  else if c.toNat = 8 then "\\b"
  else if c = '\t' then "\\t"
  else if c = '\n' then "\\n"
  else if c.toNat = 12 then "\\f"
  else if c = '\r' then "\\r"
  else if c.toNat < 32 then "\\u00" ++ hexDigitChar (c.toNat / 16) ++ hexDigitChar (c.toNat % 16)
  else String.singleton c

def escapeString (s : String) : String :=
  (s.toList.map escapeChar).foldl (fun acc x => acc ++ x) ""

mutual
/-- Compact JSON serialization (`serde_json::to_string` / `Value::to_string`),
emitting object fields in stored order. -/
def Value.toJsonString : Value → String
  | .null => "null"
  | .bool true => "true"
  | .bool false => "false"
  | .num n => toString n
  | .str s => "\"" ++ escapeString s ++ "\""
  | .arr xs => "[" ++ jsonElems xs ++ "]"
  | .obj fs => "\x7b" ++ jsonFields fs ++ "\x7d"

def jsonElems : List Value → String
  | [] => ""
  | [v] => v.toJsonString
  | v :: w :: rest => v.toJsonString ++ "," ++ jsonElems (w :: rest)

def jsonFields : List (String × Value) → String
  | [] => ""
  | [(k, v)] => "\"" ++ escapeString k ++ "\":" ++ v.toJsonString
  | (k, v) :: f :: rest => "\"" ++ escapeString k ++ "\":" ++ v.toJsonString ++ "," ++ jsonFields (f :: rest)
end

/-- `listStarts p l`: `p` is a leading segment of `l`. -/
def listStarts : List Char → List Char → Bool
  | [], _ => true
  | _ :: _, [] => false
  | a :: ta, b :: tb => a == b && listStarts ta tb

/-- `listHasInfix p l`: `p` occurs contiguously in `l`. -/
def listHasInfix (needle : List Char) : List Char → Bool
  | [] => needle.isEmpty
  | c :: rest => listStarts needle (c :: rest) || listHasInfix needle rest

/-- Rust `str::contains` on string patterns (substring search). -/
def strContains (hay needle : String) : Bool :=
  listHasInfix needle.toList hay.toList

/-- The four signature-corruption trigger substrings checked by
`handle_chat_completions` on a 400 body (openai.rs:423-427). -/
def containsTrigger (s : String) : Bool :=
  strContains s "Invalid `signature`" || strContains s "thinking.signature" ||
  strContains s "Invalid signature" || strContains s "Corrupted thought signature"

def systemMsgJson (s : String) : Value :=
  .obj [("role", .str "system"), ("content", .str s)]

def userMsgJson (s : String) : Value :=
  .obj [("role", .str "user"), ("content", .str s)]

/-! ### Chat handler pre-parse normalization (openai.rs:27-74) -/

/-- openai.rs:29-30 — Responses-format detection: no `messages` key and at
least one of `instructions` / `input`. -/
def isResponsesFormat (body : Value) : Bool :=
  !(body.get? "messages").isSome &&
    ((body.get? "instructions").isSome || (body.get? "input").isSome)

/-- openai.rs:56-68 — the user message built from `input` (string content for
string input, the serialized JSON text otherwise). -/
def chatInputUserMsg (input : Value) : Value :=
  if input.isString then userMsgJson (input.asStr.getD "")
  else userMsgJson input.toJsonString

/-- openai.rs:35-53 — non-empty string `instructions` becomes a prepended
system message (creating the `messages` array when absent). -/
def chatInstructionsStage (body : Value) : Value :=
  match (body.get? "instructions").bind Value.asStr with
  | some inst =>
    if inst.isEmpty then body
    else
      body.objInsert "messages"
        (.arr (systemMsgJson inst :: ((body.get? "messages").bind Value.asArr).getD []))
  | none => body

/-- openai.rs:55-73 — `input`, when present and when the `messages` array
exists, is appended as a user message. -/
def chatInputStage (body1 : Value) : Value :=
  match body1.get? "input" with
  | some input =>
    match (body1.get? "messages").bind Value.asArr with
    | some msgs => body1.objInsert "messages" (.arr (msgs ++ [chatInputUserMsg input]))
    | none => body1
  | none => body1

/-- openai.rs:32-74 — convert a Responses-format body for the chat handler. -/
def normalizeChatBody (body : Value) : Value :=
  if isResponsesFormat body then chatInputStage (chatInstructionsStage body) else body

/-! ### Completions/Responses handler pre-parse normalization (openai.rs:519-861) -/

def insertName (k v : String) : List (String × String) → List (String × String)
  | [] => [(k, v)]
  | (k1, v1) :: t => if k1 == k then (k, v) :: t else (k1, v1) :: insertName k v t

def lookupName (k : String) : List (String × String) → Option String
  | [] => none
  | (k1, v1) :: t => if k1 == k then some v1 else lookupName k t

/-- openai.rs:539-565 — pass 1 of the Codex conversion: record
`call_id → tool name` for call items (`local_shell_call` is named `shell`,
`web_search_call` is named `google_search`). -/
def pass1Fold (m : List (String × String)) (item : Value) : List (String × String) :=
  let ty := ((item.get? "type").bind Value.asStr).getD ""
  if ty == "function_call" || ty == "local_shell_call" || ty == "web_search_call" then
    let callId := (((item.get? "call_id").bind Value.asStr).orElse
      (fun _ => (item.get? "id").bind Value.asStr)).getD "unknown"
    let nm := if ty == "local_shell_call" then "shell"
      else if ty == "web_search_call" then "google_search"
      else ((item.get? "name").bind Value.asStr).getD "unknown"
    insertName callId nm m
  else m

/-- openai.rs:579-611 — flatten one content part of a Codex `message` item
into accumulated text parts and image blocks. -/
def msgPartFold (acc : List String × List Value) (part : Value) : List String × List Value :=
  match (part.get? "text").bind Value.asStr with
  | some t => (acc.1 ++ [t], acc.2)
  | none =>
    if ((part.get? "type").bind Value.asStr) == some "input_image" then
      match (part.get? "image_url").bind Value.asStr with
      | some u =>
        (acc.1, acc.2 ++ [Value.obj [("type", .str "image_url"),
          ("image_url", .obj [("url", .str u)])]])
      | none => acc
    else if ((part.get? "type").bind Value.asStr) == some "image_url" then
      match part.get? "image_url" with
      | some uo => (acc.1, acc.2 ++ [Value.obj [("type", .str "image_url"), ("image_url", uo)]])
      | none => acc
    else acc

/-- openai.rs:573-632 — a Codex `message` item: text parts joined with
newlines; a block list is used exactly when an image part occurred. -/
def codexMessageMsg (item : Value) : Value :=
  let role := ((item.get? "role").bind Value.asStr).getD "user"
  let parts := ((item.get? "content").bind Value.asArr).getD []
  let tp := parts.foldl msgPartFold ([], [])
  if tp.2.isEmpty then
    .obj [("role", .str role), ("content", .str (String.intercalate "\n" tp.1))]
  else
    let blocks := (if tp.1.isEmpty then []
      else [Value.obj [("type", .str "text"), ("text", .str (String.intercalate "\n" tp.1))]]) ++ tp.2
    .obj [("role", .str role), ("content", .arr blocks)]

/-- openai.rs:656-667 — the `shell` tool arguments object: `command` wrapped
into a one-element array when the source gave a scalar string, passed through
unchanged when it is already an array; optional `workdir`. -/
def shellArgsObj (exec : Value) : List (String × Value) :=
  let f1 : List (String × Value) :=
    match exec.get? "command" with
    | some cmd => insertField "command" (if cmd.isString then .arr [cmd] else cmd) []
    | none => []
  match (exec.get? "working_directory").orElse (fun _ => exec.get? "workdir") with
  | some wd => insertField "workdir" wd f1
  | none => f1

/-- openai.rs:634-701 — a Codex call item (`function_call`,
`local_shell_call`, `web_search_call`) becomes an assistant message with one
tool call. -/
def codexToolCallMsg (item : Value) (ty : String) : Value :=
  let name0 := ((item.get? "name").bind Value.asStr).getD "unknown"
  let args0 := ((item.get? "arguments").bind Value.asStr).getD "\x7b\x7d"
  let callId := (((item.get? "call_id").bind Value.asStr).orElse
    (fun _ => (item.get? "id").bind Value.asStr)).getD "unknown"
  let na : String × String :=
    if ty == "local_shell_call" then
      match item.get? "action" with
      | some action =>
        match action.get? "exec" with
        | some exec => ("shell", Value.toJsonString (.obj (shellArgsObj exec)))
        | none => ("shell", args0)
      | none => ("shell", args0)
    else if ty == "web_search_call" then
      match item.get? "action" with
      | some action =>
        let qf : List (String × Value) :=
          match action.get? "query" with
          | some q => insertField "query" q []
          | none => []
        ("google_search", Value.toJsonString (.obj qf))
      | none => ("google_search", args0)
    else (name0, args0)
  .obj [("role", .str "assistant"),
    ("tool_calls", .arr [Value.obj [("id", .str callId), ("type", .str "function"),
      ("function", .obj [("name", .str na.1), ("arguments", .str na.2)])]])]

/-- openai.rs:703-736 — a Codex output item becomes a `tool`-role message;
the tool name is resolved from the pass-1 map with fallback `shell`. -/
def codexToolOutputMsg (callMap : List (String × String)) (item : Value) : Value :=
  let callId := ((item.get? "call_id").bind Value.asStr).getD "unknown"
  let outputStr :=
    match item.get? "output" with
    | some o =>
      if o.isString then o.asStr.getD ""
      else
        match (o.get? "content").bind Value.asStr with
        | some c => c
        | none => o.toJsonString
    | none => ""
  let nm := (lookupName callId callMap).getD "shell"
  .obj [("role", .str "tool"), ("tool_call_id", .str callId), ("name", .str nm),
    ("content", .str outputStr)]

/-- openai.rs:568-740 — pass 2 of the Codex conversion: map one input item to
zero or one messages. -/
def pass2Item (callMap : List (String × String)) (item : Value) : List Value :=
  let ty := ((item.get? "type").bind Value.asStr).getD ""
  if ty == "message" then [codexMessageMsg item]
  else if ty == "function_call" || ty == "local_shell_call" || ty == "web_search_call" then
    [codexToolCallMsg item ty]
  else if ty == "function_call_output" || ty == "custom_tool_call_output" then
    [codexToolOutputMsg callMap item]
  else []

/-- openai.rs:522-741 — the full Codex conversion: optional system message
from `instructions`, then both passes over the `input` array. -/
def codexConvert (body : Value) : List Value :=
  let instructions := ((body.get? "instructions").bind Value.asStr).getD ""
  let sysMsgs := if instructions.isEmpty then [] else [systemMsgJson instructions]
  match (body.get? "input").bind Value.asArr with
  | none => sysMsgs
  | some items =>
    let callMap := items.foldl pass1Fold []
    sysMsgs ++ (items.map (pass2Item callMap)).flatten

def simpleContentOf (v : Value) : String :=
  match v with
  | .str s => s
  | .obj _ => v.toJsonString
  | _ => ""

/-- openai.rs:784-848 — the second ("simple") normalization of the
completions handler: `instructions` to a system message, `input` to a user
message or, when it is an array of role-tagged objects, spliced verbatim. -/
def simpleNormalize (body : Value) : List Value :=
  let base :=
    match (body.get? "instructions").bind Value.asStr with
    | some inst => if inst.isEmpty then [] else [systemMsgJson inst]
    | none => []
  match body.get? "input" with
  | none => base
  | some (.str s) => base ++ [userMsgJson s]
  | some (.arr xs) =>
    let isMessageArray :=
      ((xs.head?.bind Value.asObj).map (fun fs => (lookupField "role" fs).isSome)).getD false
    if isMessageArray then base ++ xs
    else
      let content := String.intercalate "\n" (xs.map simpleContentOf)
      if content.isEmpty then base else base ++ [userMsgJson content]
  | some v =>
    let content := v.toJsonString
    if content.isEmpty then base else base ++ [userMsgJson content]

/-- openai.rs:519 — Codex-style detection for the completions handler. -/
def isCodexStyle (body : Value) : Bool :=
  (body.get? "input").isSome || (body.get? "instructions").isSome

/-- openai.rs:746-756 — Legacy `prompt` to text: string verbatim, array of
strings joined with newlines, anything else serialized. -/
def legacyPromptStr (p : Value) : String :=
  match p with
  | .str s => s
  | .arr xs => String.intercalate "\n" (xs.filterMap Value.asStr)
  | v => v.toJsonString

/-- openai.rs:521-762 — stage 1 of the completions normalization: full Codex
conversion, or the legacy `prompt` conversion (which removes `prompt`). -/
def completionsStage1 (body : Value) : Value :=
  if isCodexStyle body then
    body.objInsert "messages" (.arr (codexConvert body))
  else
    match body.get? "prompt" with
    | some p => ((body.objRemove "prompt").objInsert "messages" (.arr [userMsgJson (legacyPromptStr p)]))
    | none => body

/-- openai.rs:773-778 — `already_normalized`: `messages` is present and a
non-empty array. -/
def alreadyNormalized (body : Value) : Bool :=
  (((body.get? "messages").bind Value.asArr).map (fun a => !a.isEmpty)).getD false

/-- openai.rs:772-861 — stage 2: the simple normalization, guarded by
`messages already non-empty`. -/
def completionsStage2 (body : Value) : Value :=
  if ((body.get? "instructions").isSome || (body.get? "input").isSome) && !alreadyNormalized body then
    body.objInsert "messages" (.arr (simpleNormalize body))
  else body

/-- The full pre-parse normalization performed by `handle_completions`. -/
def normalizeCompletionsBody (body : Value) : Value :=
  completionsStage2 (completionsStage1 body)

/-! ### The typed request (`OpenAIRequest`, from the mappers module) -/

/-- `OpenAIContentBlock` of `proxy::mappers::openai` as used by the handler:
text blocks and image blocks. -/
inductive OpenAIContentBlock where
  | text (text : String)
  | imageUrl (u : Value)

/-- `OpenAIContent`: a plain string or a list of content blocks. -/
inductive OpenAIContent where
  | str (s : String)
  | arr (blocks : List OpenAIContentBlock)

/-- `OpenAIMessage` (openai.rs:82-93 lists its fields). -/
structure OpenAIMessage where
  role : String
  content : Option OpenAIContent
  reasoningContent : Option String := none
  toolCalls : Option Value := none
  toolCallId : Option String := none
  name : Option String := none

/-- The fields of `OpenAIRequest` the handlers read. -/
structure OpenAIRequest where
  model : String
  messages : List OpenAIMessage
  stream : Bool
  tools : Option Value

def parseContentBlock (v : Value) : Option OpenAIContentBlock :=
  match (v.get? "type").bind Value.asStr with
  | some "text" => ((v.get? "text").bind Value.asStr).map OpenAIContentBlock.text
  | some "image_url" => some (.imageUrl ((v.get? "image_url").getD .null))
  | _ => none

def parseContent (v : Value) : Option OpenAIContent :=
  match v with
  | .str s => some (.str s)
  | .arr xs => (xs.mapM parseContentBlock).map OpenAIContent.arr
  | _ => none

def parseMessage (v : Value) : Option OpenAIMessage :=
  match (v.get? "role").bind Value.asStr with
  | none => none
  | some role =>
    let rc := (v.get? "reasoning_content").bind Value.asStr
    let tc := v.get? "tool_calls"
    let tcid := (v.get? "tool_call_id").bind Value.asStr
    let nm := (v.get? "name").bind Value.asStr
    match v.get? "content" with
    | none => some ⟨role, none, rc, tc, tcid, nm⟩
    | some .null => some ⟨role, none, rc, tc, tcid, nm⟩
    | some c => (parseContent c).map (fun cc => ⟨role, some cc, rc, tc, tcid, nm⟩)

/-- Modelled from the spec: the serde deserialization of `OpenAIRequest`
(`proxy::mappers::openai`, not under `src/`).  Per §3 the canonical request
carries `model`, `messages`, `stream` and `tools`; `messages` defaults to the
empty list when absent (the handlers' Responses conversion can leave the key
unset and relies on the empty-messages fallback, openai.rs:79-94), `stream`
defaults to `false`. -/
def parseOpenAIRequest (v : Value) : Option OpenAIRequest :=
  match (v.get? "model").bind Value.asStr with
  | none => none
  | some model =>
    let msgsV :=
      match v.get? "messages" with
      | none => some []
      | some (.arr xs) => xs.mapM parseMessage
      | some _ => none
    match msgsV with
    | none => none
    | some msgs =>
      some ⟨model, msgs, ((v.get? "stream").bind Value.asBool).getD false, v.get? "tools"⟩

/-- The fallback message injected on empty `messages`
(openai.rs:80-94 and 871-884). -/
def spaceMessage : OpenAIMessage :=
  ⟨"user", some (.str " "), none, none, none, none⟩

/-- openai.rs:80-94 / 871-884 — inject `{role:"user", content:" "}` when the
parsed message list is empty. -/
def injectIfEmpty (req : OpenAIRequest) : OpenAIRequest :=
  if req.messages.isEmpty then { req with messages := [spaceMessage] } else req

/-! ### Retry policy (handlers/common.rs, not under src/) -/

/-- Modelled from the spec: the `RetryStrategy` variants of §3. -/
inductive RetryStrategy where
  | retryAfter (ms : Nat)
  | exponentialBackoff
  | fixedDelay (ms : Nat)
  | noRetry

/-- Modelled from the spec: `determine_retry_strategy`
(`proxy::handlers::common`, not under `src/`).  §4.1 classifies
{429, 503, 529, 500} (and transient network failures) as the
rotate-and-retry classes; the 400-signature and 401/403 classes are handled
by the chat handler's own dedicated branches *after* the generic
`apply_retry_strategy` call (openai.rs:422-472), and §4.10/§8 require those
branches to be reachable (the recovery prompt must actually be appended), so
`classify` must yield a non-retrying strategy for them here. -/
def determine_retry_strategy (status : Nat) (_errorBody : String) (_isIdem : Bool) : RetryStrategy :=
  if status == 429 || status == 503 || status == 529 || status == 500 then .exponentialBackoff
  else .noRetry

/-- Modelled from the spec: `apply_retry_strategy` sleeps per strategy
(elided in this timeless model) and reports whether the strategy permits a
retry (§4.10 step 9). -/
def apply_retry_strategy (s : RetryStrategy) (_attempt _maxA _status : Nat) : Bool :=
  match s with
  | .noRetry => false
  | _ => true

/-- Modelled from the spec: `should_rotate_account` returns true exactly on
{401, 403, 429, 500, 503, 529} (§4.1).  The chat handler consults it only
for logging (openai.rs:390). -/
def should_rotate_account (status : Nat) : Bool :=
  status == 401 || status == 403 || status == 429 || status == 500 ||
    status == 503 || status == 529

/-! ### Stream peek (openai.rs:219-288, 1015-1069, 1089-1136) -/

/-- One observed item of the translated SSE stream.  `timedOut` stands for
the 60-second per-chunk deadline expiring, `ioErr` for a transport error. -/
inductive StreamItem where
  | chunk (s : String)
  | ioErr (e : String)
  | timedOut

inductive PeekReason where
  | errorEvent
  | streamErr (e : String)
  | ended
  | timedOut

inductive PeekResult where
  | success (first : String) (rest : List StreamItem)
  | retry (r : PeekReason)

def dropWhileList (p : Char → Bool) : List Char → List Char
  | [] => []
  | c :: cs => if p c then dropWhileList p cs else c :: cs

/-- `str::trim`: strip whitespace from both ends (structural form of
`String.trim`). -/
def trimChars (s : String) : List Char :=
  (dropWhileList Char.isWhitespace (dropWhileList Char.isWhitespace s.toList).reverse).reverse

/-- openai.rs:237 — heartbeat detection on the trimmed chunk text. -/
def isHeartbeatChunk (s : String) : Bool :=
  listStarts ":".toList (trimChars s) || listStarts "data: :".toList (trimChars s)

/-- The peek loop shared by all handlers (openai.rs:223-277): drop empty
chunks and heartbeats, abort on an `"error"` marker, transport error, end of
stream or timeout; the first surviving chunk ends the peek. -/
def peek : List StreamItem → PeekResult
  | [] => .retry .ended
  | .chunk s :: rest =>
    if s.isEmpty then peek rest
    else if isHeartbeatChunk s then peek rest
    else if strContains s "\"error\"" then .retry .errorEvent
    else .success s rest
  | .ioErr e :: _ => .retry (.streamErr e)
  | .timedOut :: _ => .retry .timedOut

/-- The `last_error` strings of the chat handler's peek (openai.rs:245-272). -/
def chatPeekMsg : PeekReason → String
  | .errorEvent => "Error event during peek"
  | .streamErr e => "Stream error during peek: " ++ e
  | .ended => "Empty response stream during peek"
  | .timedOut => "Timeout waiting for first data"

/-- The `last_error` strings of the completions handler's client-stream peek
(openai.rs:1036-1056). -/
def codexPeekMsgWant : PeekReason → String
  | .errorEvent => "Error event during peek"
  | .streamErr e => "Stream error during peek: " ++ e
  | .ended => "Empty response stream"
  | .timedOut => "Timeout waiting for first data"

/-- The `last_error` strings of the completions handler's internal
(collector) peek (openai.rs:1109-1129). -/
def codexPeekMsgForced : PeekReason → String
  | .errorEvent => "Error event in internal stream"
  | .streamErr e => "Internal stream error: " ++ e
  | .ended => "Empty internal stream"
  | .timedOut => "Timeout peek internal"

/-! ### Orchestrator state machine -/

/-- `AccountTicket`: the triple returned by `get_token`. -/
structure Ticket where
  accessToken : String
  projectId : String
  email : String

/-- The environment of one attempt: what the external world (token manager,
upstream) does.  `http` carries the upstream status, `Retry-After` header,
error body, the translated stream, the collector's outcome on the
peek-prefixed stream, and the unary-JSON parse outcome (the last two are
consulted only on the paths that use them). -/
inductive AttemptEnv where
  | tokenErr (e : String)
  | netErr (t : Ticket) (e : String)
  | http (t : Ticket) (status : Nat) (retryAfter : Option String) (errorText : String)
      (stream : List StreamItem) (collect : Except String Value)
      (jsonBody : Except String Value)

/-- Observable side-effects of a handler run, in program order. -/
inductive Event where
  | getToken (requestType : String) (forceRotate : Bool) (session : String) (model : String)
  | upstream (method : String) (query : Option String) (email : String)
  | markRateLimited (email : String) (status : Nat)
  | markSuccess (email : String)

inductive RespBody where
  | text (s : String)
  | sse (stream : List StreamItem)
  | json (v : Value)

structure HttpResponse where
  status : Nat
  headers : List (String × String)
  body : RespBody

inductive StepResult where
  | done (resp : HttpResponse) (events : List Event)
  | next (req : OpenAIRequest) (events : List Event) (lastError : String) (email : String)

/-- Collaborators that live in modules absent from `src/` and whose exact
behaviour no claim depends on: the request-config resolver
(`resolve_request_config`), the session fingerprint
(`SessionManager::extract_openai_session_id`), the unary response translator
(`transform_openai_response`) and the chat-to-legacy projection.  Theorems
quantify over them. -/
structure Collab where
  resolveRequestType : String → String → Option Value → String
  extractSession : OpenAIRequest → String
  transformResponse : Value → Value
  chatToLegacy : Value → Value

/-- Modelled from the spec: `resolve_model_route`
(`proxy::common::model_mapping`, not under `src/`).  §4.3: explicit
user-mapping entry first, identity otherwise (the built-in alias table is
absorbed into the mapping parameter). -/
def resolve_model_route (clientModel : String) (userMapping : List (String × String)) : String :=
  (lookupName clientModel userMapping).getD clientModel

def MAX_RETRY_ATTEMPTS : Nat := 3

/-- openai.rs:104 / 890 — `MAX_RETRY_ATTEMPTS.min(pool_size + 1).max(2)`. -/
def maxAttemptsOf (poolSize : Nat) : Nat :=
  max (min MAX_RETRY_ATTEMPTS (poolSize + 1)) 2

/-- `StatusCode::is_success`: the 2xx range. -/
def isSuccessStatus (s : Nat) : Bool :=
  decide (200 ≤ s ∧ s < 300)

/-- openai.rs:168-170 / 962-964 — the always-stream decision. -/
def chatActualStream (req : OpenAIRequest) : Bool :=
  req.stream || !req.stream

/-- openai.rs:179-183 — upstream method selection. -/
def chatMethod (req : OpenAIRequest) : String :=
  if chatActualStream req then "streamGenerateContent" else "generateContent"

/-- openai.rs:184 — upstream query-string selection. -/
def chatQuery (req : OpenAIRequest) : Option String :=
  if chatActualStream req then some "alt=sse" else none

/-- openai.rs:294-299 — SSE response headers of the chat handler. -/
def sseHeadersChat (email mapped : String) : List (String × String) :=
  [("Content-Type", "text/event-stream"), ("Cache-Control", "no-cache"),
   ("Connection", "keep-alive"), ("X-Accel-Buffering", "no"),
   ("X-Account-Email", email), ("X-Mapped-Model", mapped)]

/-- openai.rs:1071-1077 — SSE response headers of the completions handler
(no `X-Accel-Buffering`). -/
def sseHeadersCodex (email mapped : String) : List (String × String) :=
  [("Content-Type", "text/event-stream"), ("Cache-Control", "no-cache"),
   ("Connection", "keep-alive"), ("X-Account-Email", email), ("X-Mapped-Model", mapped)]

def acctMappedHeaders (email mapped : String) : List (String × String) :=
  [("X-Account-Email", email), ("X-Mapped-Model", mapped)]

/-- openai.rs:437 — the recovery prompt appended on signature corruption. -/
def repairPrompt : String :=
  "\n\n[System Recovery] Your previous output contained an invalid signature. Please regenerate the response without the corrupted signature block."

/-- openai.rs:435-454 — append the recovery prompt to the *last* message
when its role is `user`, preserving the content shape: string content is
extended in place, a block list gains one text block. -/
def appendRepair (req : OpenAIRequest) : OpenAIRequest :=
  match req.messages.getLast? with
  | none => req
  | some lastMsg =>
    if lastMsg.role == "user" then
      match lastMsg.content with
      | none => req
      | some c =>
        let c2 := match c with
          | .str s => OpenAIContent.str (s ++ repairPrompt)
          | .arr bs => OpenAIContent.arr (bs ++ [.text repairPrompt])
        { req with messages := req.messages.dropLast ++ [{ lastMsg with content := some c2 }] }
    else req

/-- openai.rs:374 / 1257 — the statuses that trigger rate-limit marking. -/
def rateLimitSet (status : Nat) : Bool :=
  status == 429 || status == 529 || status == 503 || status == 500

/-- One iteration of the chat handler's retry loop (openai.rs:115-488):
token acquisition (force-rotating whenever `attempt > 0`), the always-stream
upstream call, peek, SSE passthrough or collection on success; on failure
rate-limit marking, the generic retry strategy, the signature-recovery
mutation, the 401/403 delay, or the verbatim non-retryable return. -/
def chatStep (collab : Collab) (mapped : String) (maxA : Nat)
    (req : OpenAIRequest) (env : AttemptEnv) (attempt : Nat) : StepResult :=
  let rt := collab.resolveRequestType req.model mapped req.tools
  let sess := collab.extractSession req
  let gt := Event.getToken rt (decide (attempt > 0)) sess mapped
  match env with
  | .tokenErr e =>
    .done ⟨503, [("X-Mapped-Model", mapped)], .text ("Token error: " ++ e)⟩ [gt]
  | .netErr t e =>
    .next req [gt, Event.upstream (chatMethod req) (chatQuery req) t.email] e t.email
  | .http t status _retryAfter errorText stream collect jsonBody =>
    let evs := [gt, Event.upstream (chatMethod req) (chatQuery req) t.email]
    if isSuccessStatus status then
      if chatActualStream req then
        match peek stream with
        | .retry r => .next req evs (chatPeekMsg r) t.email
        | .success f rest =>
          if req.stream then
            .done ⟨200, sseHeadersChat t.email mapped, .sse (.chunk f :: rest)⟩ evs
          else
            match collect with
            | .ok v => .done ⟨200, acctMappedHeaders t.email mapped, .json v⟩ evs
            | .error e => .done ⟨500, [], .text ("Stream collection error: " ++ e)⟩ evs
      else
        match jsonBody with
        | .ok v => .done ⟨200, acctMappedHeaders t.email mapped, .json (collab.transformResponse v)⟩ evs
        | .error e => .done ⟨502, [], .text ("Parse error: " ++ e)⟩ evs
    else
      let lastError := "HTTP " ++ toString status ++ ": " ++ errorText
      let evs2 := evs ++ (if rateLimitSet status then [Event.markRateLimited t.email status] else [])
      if apply_retry_strategy (determine_retry_strategy status errorText false) attempt maxA status then
        .next req evs2 lastError t.email
      else if status == 400 && containsTrigger errorText then
        .next (appendRepair req) evs2 lastError t.email
      else if status == 403 || status == 401 then
        if apply_retry_strategy (.fixedDelay 200) attempt maxA status then
          .next req evs2 lastError t.email
        else
          .done ⟨status, acctMappedHeaders t.email mapped, .text errorText⟩ evs2
      else
        .done ⟨status, acctMappedHeaders t.email mapped, .text errorText⟩ evs2

/-- One iteration of the completions handler's retry loop
(openai.rs:902-1287): like `chatStep` but with `mark_account_success` on
success, the chat-to-legacy projection on the collected path, and a plain
retry/return split on failure (no signature or 401/403 branches). -/
def codexStep (collab : Collab) (mapped : String) (maxA : Nat)
    (req : OpenAIRequest) (env : AttemptEnv) (attempt : Nat) : StepResult :=
  let rt := collab.resolveRequestType req.model mapped req.tools
  let sess := collab.extractSession req
  let gt := Event.getToken rt (decide (attempt > 0)) sess mapped
  match env with
  | .tokenErr e =>
    .done ⟨503, [("X-Mapped-Model", mapped)], .text ("Token error: " ++ e)⟩ [gt]
  | .netErr t e =>
    .next req [gt, Event.upstream (chatMethod req) (chatQuery req) t.email] e t.email
  | .http t status _retryAfter errorText stream collect jsonBody =>
    let evs := [gt, Event.upstream (chatMethod req) (chatQuery req) t.email]
    if isSuccessStatus status then
      let evs := evs ++ [Event.markSuccess t.email]
      if chatActualStream req then
        if req.stream then
          match peek stream with
          | .retry r => .next req evs (codexPeekMsgWant r) t.email
          | .success f rest =>
            .done ⟨200, sseHeadersCodex t.email mapped, .sse (.chunk f :: rest)⟩ evs
        else
          match peek stream with
          | .retry r => .next req evs (codexPeekMsgForced r) t.email
          | .success _ _ =>
            match collect with
            | .ok v => .done ⟨200, acctMappedHeaders t.email mapped, .json (collab.chatToLegacy v)⟩ evs
            | .error e => .done ⟨500, [], .text ("Stream collection error: " ++ e)⟩ evs
      else
        match jsonBody with
        | .ok v =>
          .done ⟨200, acctMappedHeaders t.email mapped,
            .json (collab.chatToLegacy (collab.transformResponse v))⟩ evs
        | .error e => .done ⟨502, [("X-Mapped-Model", mapped)], .text ("Parse error: " ++ e)⟩ evs
    else
      let lastError := "HTTP " ++ toString status ++ ": " ++ errorText
      let evs2 := evs ++ (if rateLimitSet status then [Event.markRateLimited t.email status] else [])
      if apply_retry_strategy (determine_retry_strategy status errorText false) attempt maxA status then
        .next req evs2 lastError t.email
      else
        .done ⟨status, acctMappedHeaders t.email mapped, .text errorText⟩ evs2

/-- openai.rs:490-505 / 1289-1304 — the all-attempts-exhausted response. -/
def exhaustedResponse (mapped : String) (lastError : String) : Option String → HttpResponse
  | some e => ⟨429, [("X-Account-Email", e), ("X-Mapped-Model", mapped)],
      .text ("All accounts exhausted. Last error: " ++ lastError)⟩
  | none => ⟨429, [("X-Mapped-Model", mapped)],
      .text ("All accounts exhausted. Last error: " ++ lastError)⟩

/-- The bounded retry loop `for attempt in 0..max_attempts` shared by both
text handlers, threading the (mutable) request, `last_error` and
`last_email`. -/
def runLoop (step : OpenAIRequest → AttemptEnv → Nat → StepResult)
    (exhaust : String → Option String → HttpResponse) :
    Nat → OpenAIRequest → (Nat → AttemptEnv) → Nat → String → Option String →
      HttpResponse × List Event
  | 0, _, _, _, lastErr, lastEmail => (exhaust lastErr lastEmail, [])
  | r + 1, req, envs, i, _, _ =>
    match step req (envs i) i with
    | .done resp evs => (resp, evs)
    | .next req2 evs err email =>
      let p := runLoop step exhaust r req2 envs (i + 1) err (some email)
      (p.1, evs ++ p.2)

/-- Every attempt continues (none returns a response): the run exhausts its
whole budget. -/
def runsOut (step : OpenAIRequest → AttemptEnv → Nat → StepResult) :
    Nat → OpenAIRequest → (Nat → AttemptEnv) → Nat → Bool
  | 0, _, _, _ => true
  | r + 1, req, envs, i =>
    match step req (envs i) i with
    | .done _ _ => false
    | .next req2 _ _ _ => runsOut step r req2 envs (i + 1)

/-- `POST /v1/chat/completions` (openai.rs:23-506). -/
def handle_chat_completions (collab : Collab) (mapping : List (String × String)) (pool : Nat)
    (envs : Nat → AttemptEnv) (body : Value) : HttpResponse × List Event :=
  match parseOpenAIRequest (normalizeChatBody body) with
  | none => (⟨400, [], .text "Invalid request"⟩, [])
  | some req0 =>
    let req := injectIfEmpty req0
    let mapped := resolve_model_route req.model mapping
    runLoop (chatStep collab mapped (maxAttemptsOf pool)) (exhaustedResponse mapped)
      (maxAttemptsOf pool) req envs 0 "" none

/-- `POST /v1/completions` and `/v1/responses` (openai.rs:510-1305). -/
def handle_completions (collab : Collab) (mapping : List (String × String)) (pool : Nat)
    (envs : Nat → AttemptEnv) (body : Value) : HttpResponse × List Event :=
  match parseOpenAIRequest (normalizeCompletionsBody body) with
  | none => (⟨400, [], .text "Invalid request"⟩, [])
  | some req0 =>
    let req := injectIfEmpty req0
    let mapped := resolve_model_route req.model mapping
    runLoop (codexStep collab mapped (maxAttemptsOf pool)) (exhaustedResponse mapped)
      (maxAttemptsOf pool) req envs 0 "" none

/-! ### Image generation (openai.rs:1332-1564) -/

/-- The environment of one images-generations request: the token manager's
answer, each spawned task's outcome (outer `error` = join error, inner =
the task's own `Result<Value, String>`), and the wall clock for the
`created` field. -/
structure ImagesEnv where
  tokenRes : Except String Ticket
  tasks : Nat → Except String (Except String Value)
  now : Int

/-- openai.rs:1482-1511 — extract the OpenAI-format image objects from one
upstream reply (unwrap the optional `response` envelope, then
`candidates[0].content.parts[*].inlineData`). -/
def extractImages (responseFormat : String) (resp : Value) : List Value :=
  let raw := ((resp.get? "response").getD resp)
  match ((((raw.get? "candidates").bind (fun c => c.getIdx? 0)).bind
      (fun cand => cand.get? "content")).bind
      (fun content => content.get? "parts")).bind Value.asArr with
  | none => []
  | some parts =>
    parts.foldl (fun acc part =>
      match part.get? "inlineData" with
      | none => acc
      | some img =>
        let data := ((img.get? "data").bind Value.asStr).getD ""
        if data.isEmpty then acc
        else if responseFormat == "url" then
          let mime := ((img.get? "mimeType").bind Value.asStr).getD "image/png"
          acc ++ [Value.obj [("url", .str ("data:" ++ mime ++ ";base64," ++ data))]]
        else acc ++ [Value.obj [("b64_json", .str data)]]) []

/-- openai.rs:1474-1524 — fold the per-task results into the collected image
list and error list. -/
def collectImages (responseFormat : String)
    (results : List (Except String (Except String Value))) : List Value × List String :=
  results.foldl (fun acc r =>
    match r with
    | .error e => (acc.1, acc.2 ++ ["Task join error: " ++ e])
    | .ok (.error e) => (acc.1, acc.2 ++ [e])
    | .ok (.ok resp) => (acc.1 ++ extractImages responseFormat resp, acc.2)) ([], [])

/-- openai.rs:1386-1394 — prompt enhancement from `quality` and `style`. -/
def enhancePrompt (prompt quality style : String) : String :=
  let p1 := if quality == "hd" then prompt ++ ", (high quality, highly detailed, 4k resolution, hdr)" else prompt
  if style == "vivid" then p1 ++ ", (vivid colors, dramatic lighting, rich details)"
  else if style == "natural" then p1 ++ ", (natural lighting, realistic, photorealistic)"
  else p1

/-- `POST /v1/images/generations` (openai.rs:1332-1564): parse the request
fields with their defaults, acquire one token, fan out `n` parallel
`generateContent` calls, collect, and answer 502 on total failure ("No
images generated" when there were no errors, i.e. `n = 0`), else 200 with
only the `X-Account-Email` header. -/
def handle_images_generations (env : ImagesEnv) (body : Value) : HttpResponse × List Event :=
  match (body.get? "prompt").bind Value.asStr with
  | none => (⟨400, [], .text "Missing 'prompt' field"⟩, [])
  | some _prompt =>
    let n := ((body.get? "n").bind Value.asU64).getD 1
    let responseFormat := ((body.get? "response_format").bind Value.asStr).getD "b64_json"
    match env.tokenRes with
    | .error e => (⟨503, [], .text ("Token error: " ++ e)⟩, [])
    | .ok t =>
      let events := (List.range n).map (fun _ => Event.upstream "generateContent" none t.email)
      let results := (List.range n).map env.tasks
      let ie := collectImages responseFormat results
      if ie.1.isEmpty then
        let msg := if ie.2.isEmpty then "No images generated" else String.intercalate "; " ie.2
        (⟨502, [], .text msg⟩, events)
      else
        (⟨200, [("X-Account-Email", t.email)],
          .json (.obj [("created", .num env.now), ("data", .arr ie.1)])⟩, events)

/-! ### Trace helpers -/

def isUpstreamEvent : Event → Bool
  | .upstream _ _ _ => true
  | _ => false

def countUpstream (evs : List Event) : Nat :=
  (evs.filter isUpstreamEvent).length

def isMarkRL : Event → Bool
  | .markRateLimited _ _ => true
  | _ => false

def countMarkRL (evs : List Event) : Nat :=
  (evs.filter isMarkRL).length

/-- Every upstream invocation uses the streaming method with `alt=sse`. -/
def upstreamEventOk : Event → Bool
  | .upstream m q _ => m == "streamGenerateContent" && q == some "alt=sse"
  | _ => true

/-- The `force_rotate` flags of the `get_token` calls, in order. -/
def getTokenForces (evs : List Event) : List Bool :=
  evs.filterMap fun e =>
    match e with
    | .getToken _ f _ _ => some f
    | _ => none

def stepEventsOf : StepResult → List Event
  | .done _ evs => evs
  | .next _ evs _ _ => evs

def chatStepEvents (collab : Collab) (mapped : String) (maxA : Nat)
    (req : OpenAIRequest) (env : AttemptEnv) (attempt : Nat) : List Event :=
  stepEventsOf (chatStep collab mapped maxA req env attempt)

def codexStepEvents (collab : Collab) (mapped : String) (maxA : Nat)
    (req : OpenAIRequest) (env : AttemptEnv) (attempt : Nat) : List Event :=
  stepEventsOf (codexStep collab mapped maxA req env attempt)


/-- Predicate: a rate-limit-mark event names the given account and status
(other events pass). -/
def markOkFor (email : String) (status : Nat) : Event → Bool
  | .markRateLimited e s => e == email && s == status
  | _ => true

/-! ### Concrete instances used by witnesses and counterexamples -/

/-- A trivial instantiation of the quantified collaborators. -/
def collabTriv : Collab :=
  ⟨fun _ _ _ => "chat", fun _ => "sess", id, id⟩

def tickA : Ticket := ⟨"tok", "proj", "a@x"⟩

def tickB : Ticket := ⟨"tok", "proj", "b@x"⟩

def reqW : OpenAIRequest :=
  ⟨"m", [⟨"user", some (.str "hi"), none, none, none, none⟩], true, none⟩

/-- A chat body whose attempt 0 hits a signature-corruption 400. -/
def sigBody : Value :=
  .obj [("model", .str "m"), ("stream", .bool true),
        ("messages", .arr [.obj [("role", .str "user"), ("content", .str "hi")]])]

/-- The parse of `sigBody`. -/
def reqSig : OpenAIRequest :=
  ⟨"m", [⟨"user", some (.str "hi"), none, none, none, none⟩], true, none⟩

/-- Attempt 0: HTTP 400 with a signature-trigger body on account `a@x`;
attempt 1: a successful stream on account `b@x`. -/
def sigEnvs : Nat → AttemptEnv := fun i =>
  if i == 0 then .http tickA 400 none "Invalid `signature` detected" [] (.error "e") (.error "e")
  else .http tickB 200 none "" [.chunk "data: hello"] (.error "e") (.error "e")

/-- Every attempt fails with a network error: the budget exhausts. -/
def exhEnvs : Nat → AttemptEnv := fun _ => .netErr tickA "net down"

def exhBody : Value := .obj [("model", .str "m")]

def reqExh : OpenAIRequest := ⟨"m", [], false, none⟩

/-- A successful upstream image reply with one inline image. -/
def imgOkResp : Value :=
  .obj [("response",
    .obj [("candidates",
      .arr [.obj [("content",
        .obj [("parts",
          .arr [.obj [("inlineData",
            .obj [("data", .str "QUJD"), ("mimeType", .str "image/png")])]])])]])])]

/-! ### Association-list lemmas -/

theorem lookupField_insertField_self (k : String) (v : Value) (fs : List (String × Value)) :
    lookupField k (insertField k v fs) = some v := by
  induction fs with
  | nil => simp [insertField, lookupField]
  | cons p t ih =>
    obtain ⟨k1, v1⟩ := p
    by_cases h : k1 = k
    · simp [insertField, h, lookupField]
    · simp [insertField, h, lookupField, ih]

theorem lookupField_insertField_ne (k k' : String) (v : Value) (fs : List (String × Value))
    (h : k' ≠ k) : lookupField k' (insertField k v fs) = lookupField k' fs := by
  induction fs with
  | nil => simp [insertField, lookupField, Ne.symm h]
  | cons p t ih =>
    obtain ⟨k1, v1⟩ := p
    by_cases h1 : k1 = k
    · subst h1
      simp [insertField, lookupField, Ne.symm h]
    · simp only [insertField, h1, if_false, lookupField]
      by_cases h2 : k1 = k'
      · simp [h2, lookupField]
      · simp [h2, ih, lookupField]

theorem insertField_insertField (k : String) (v w : Value) (fs : List (String × Value)) :
    insertField k v (insertField k w fs) = insertField k v fs := by
  induction fs with
  | nil => simp [insertField]
  | cons p t ih =>
    obtain ⟨k1, v1⟩ := p
    by_cases h : k1 = k
    · simp [insertField, h]
    · simp [insertField, h, ih]

theorem lookupField_removeField_self (k : String) (fs : List (String × Value)) :
    lookupField k (removeField k fs) = none := by
  induction fs with
  | nil => simp [removeField, lookupField]
  | cons p t ih =>
    obtain ⟨k1, v1⟩ := p
    by_cases h : k1 = k
    · simp [removeField, h, ih]
    · simp [removeField, h, lookupField, ih]

theorem lookupField_removeField_ne (k k' : String) (fs : List (String × Value))
    (h : k' ≠ k) : lookupField k' (removeField k fs) = lookupField k' fs := by
  induction fs with
  | nil => simp [removeField]
  | cons p t ih =>
    obtain ⟨k1, v1⟩ := p
    by_cases h1 : k1 = k
    · subst h1
      simp [removeField, lookupField, ih, Ne.symm h]
    · simp only [removeField, h1, if_false, lookupField]
      by_cases h2 : k1 = k'
      · simp [h2]
      · simp [h2, ih]

theorem get?_objInsert_self (fs : List (String × Value)) (k : String) (v : Value) :
    ((Value.obj fs).objInsert k v).get? k = some v := by
  simp [Value.objInsert, Value.get?, lookupField_insertField_self]

theorem get?_objInsert_ne (fs : List (String × Value)) (k k' : String) (v : Value)
    (h : k' ≠ k) : ((Value.obj fs).objInsert k v).get? k' = (Value.obj fs).get? k' := by
  simp [Value.objInsert, Value.get?, lookupField_insertField_ne _ _ _ _ h]

theorem objInsert_objInsert (fs : List (String × Value)) (k : String) (v w : Value) :
    ((Value.obj fs).objInsert k w).objInsert k v = (Value.obj fs).objInsert k v := by
  simp [Value.objInsert, insertField_insertField]

theorem get?_some_obj (b : Value) (k : String) (v : Value) (h : b.get? k = some v) :
    ∃ fs, b = Value.obj fs := by
  cases b with
  | obj fs => exact ⟨fs, rfl⟩
  | null => simp [Value.get?] at h
  | bool x => simp [Value.get?] at h
  | num x => simp [Value.get?] at h
  | str x => simp [Value.get?] at h
  | arr x => simp [Value.get?] at h

theorem list_isEmpty_true {α : Type} {l : List α} (h : l.isEmpty = true) : l = [] := by
  cases l with
  | nil => rfl
  | cons a t => simp [List.isEmpty] at h

/-! ### Stage computation lemmas -/

theorem chatInstructionsStage_of_none (b : Value)
    (h : (b.get? "instructions").bind Value.asStr = none) :
    chatInstructionsStage b = b := by
  unfold chatInstructionsStage
  rw [h]

theorem chatInstructionsStage_of_empty (b : Value) (inst : String)
    (h : (b.get? "instructions").bind Value.asStr = some inst) (he : inst.isEmpty = true) :
    chatInstructionsStage b = b := by
  unfold chatInstructionsStage
  rw [h]
  simp [he]

theorem chatInstructionsStage_of_some (b : Value) (inst : String)
    (h : (b.get? "instructions").bind Value.asStr = some inst) (he : inst.isEmpty = false) :
    chatInstructionsStage b = b.objInsert "messages"
      (.arr (systemMsgJson inst :: ((b.get? "messages").bind Value.asArr).getD [])) := by
  unfold chatInstructionsStage
  rw [h]
  simp [he]

theorem chatInputStage_of_noinput (b : Value) (h : b.get? "input" = none) :
    chatInputStage b = b := by
  unfold chatInputStage
  rw [h]

theorem chatInputStage_of_nomsgs (b input : Value) (h : b.get? "input" = some input)
    (hm : (b.get? "messages").bind Value.asArr = none) :
    chatInputStage b = b := by
  unfold chatInputStage
  rw [h, hm]

theorem chatInputStage_of_msgs (b input : Value) (msgs : List Value)
    (h : b.get? "input" = some input)
    (hm : (b.get? "messages").bind Value.asArr = some msgs) :
    chatInputStage b = b.objInsert "messages" (.arr (msgs ++ [chatInputUserMsg input])) := by
  unfold chatInputStage
  rw [h, hm]

theorem completionsStage1_of_codex (b : Value) (h : isCodexStyle b = true) :
    completionsStage1 b = b.objInsert "messages" (.arr (codexConvert b)) := by
  rw [completionsStage1, if_pos h]

theorem completionsStage1_of_prompt (b p : Value) (h : isCodexStyle b = false)
    (hp : b.get? "prompt" = some p) :
    completionsStage1 b =
      (b.objRemove "prompt").objInsert "messages" (.arr [userMsgJson (legacyPromptStr p)]) := by
  rw [completionsStage1, if_neg (by simp [h]), hp]

theorem completionsStage1_of_plain (b : Value) (h : isCodexStyle b = false)
    (hp : b.get? "prompt" = none) :
    completionsStage1 b = b := by
  rw [completionsStage1, if_neg (by simp [h]), hp]

theorem completionsStage2_of_apply (b : Value)
    (h : (((b.get? "instructions").isSome || (b.get? "input").isSome) && !alreadyNormalized b) = true) :
    completionsStage2 b = b.objInsert "messages" (.arr (simpleNormalize b)) := by
  rw [completionsStage2, if_pos h]

theorem completionsStage2_noapply (b : Value)
    (h : (((b.get? "instructions").isSome || (b.get? "input").isSome) && !alreadyNormalized b) = false) :
    completionsStage2 b = b := by
  rw [completionsStage2, if_neg (by simp [h])]

theorem completionsStage2_skip (b : Value) (h : alreadyNormalized b = true) :
    completionsStage2 b = b :=
  completionsStage2_noapply b (by simp [h])

/-! ### Normalization congruence lemmas -/

theorem codexConvert_congr (b b' : Value)
    (h1 : b.get? "instructions" = b'.get? "instructions")
    (h2 : b.get? "input" = b'.get? "input") :
    codexConvert b = codexConvert b' := by
  unfold codexConvert
  rw [h1, h2]

theorem simpleNormalize_congr (b b' : Value)
    (h1 : b.get? "instructions" = b'.get? "instructions")
    (h2 : b.get? "input" = b'.get? "input") :
    simpleNormalize b = simpleNormalize b' := by
  unfold simpleNormalize
  rw [h1, h2]

theorem isCodexStyle_congr (b b' : Value)
    (h1 : b.get? "instructions" = b'.get? "instructions")
    (h2 : b.get? "input" = b'.get? "input") :
    isCodexStyle b = isCodexStyle b' := by
  unfold isCodexStyle
  rw [h1, h2]

/-! ### Idempotence of the pre-parse normalizations (claim C6) -/

theorem isResponsesFormat_messages (b : Value) (h : isResponsesFormat b = true) :
    b.get? "messages" = none := by
  unfold isResponsesFormat at h
  rcases hm : b.get? "messages" with _ | v
  · rfl
  · rw [hm] at h
    simp at h

theorem normalizeChatBody_skip (b : Value) (h : (b.get? "messages").isSome = true) :
    normalizeChatBody b = b := by
  rw [normalizeChatBody, if_neg]
  unfold isResponsesFormat
  simp [h]

theorem normalizeChatBody_cases (b : Value) :
    normalizeChatBody b = b ∨ ((normalizeChatBody b).get? "messages").isSome = true := by
  by_cases hr : isResponsesFormat b = true
  · have hm : b.get? "messages" = none := isResponsesFormat_messages b hr
    have hmb : (b.get? "messages").bind Value.asArr = none := by rw [hm]; rfl
    rcases hi : (b.get? "instructions").bind Value.asStr with _ | inst
    · have h1 : chatInstructionsStage b = b := chatInstructionsStage_of_none b hi
      rcases hin : b.get? "input" with _ | input
      · left
        rw [normalizeChatBody, if_pos hr, h1, chatInputStage_of_noinput b hin]
      · left
        rw [normalizeChatBody, if_pos hr, h1, chatInputStage_of_nomsgs b input hin hmb]
    · by_cases hie : inst.isEmpty = true
      · have h1 : chatInstructionsStage b = b := chatInstructionsStage_of_empty b inst hi hie
        rcases hin : b.get? "input" with _ | input
        · left
          rw [normalizeChatBody, if_pos hr, h1, chatInputStage_of_noinput b hin]
        · left
          rw [normalizeChatBody, if_pos hr, h1, chatInputStage_of_nomsgs b input hin hmb]
      · have hief : inst.isEmpty = false := by
          cases h2 : inst.isEmpty
          · rfl
          · exact absurd h2 hie
        obtain ⟨fs, rfl⟩ : ∃ fs, b = Value.obj fs := by
          rcases hgi : b.get? "instructions" with _ | gv
          · rw [hgi] at hi
            simp at hi
          · exact get?_some_obj b _ _ hgi
        have h1 : chatInstructionsStage (Value.obj fs) =
            (Value.obj fs).objInsert "messages" (.arr [systemMsgJson inst]) := by
          rw [chatInstructionsStage_of_some _ inst hi hief, hmb]
          rfl
        have hym : ((Value.obj fs).objInsert "messages" (.arr [systemMsgJson inst])).get? "messages" =
            some (.arr [systemMsgJson inst]) := get?_objInsert_self fs _ _
        have hyin : ((Value.obj fs).objInsert "messages" (.arr [systemMsgJson inst])).get? "input" =
            (Value.obj fs).get? "input" := get?_objInsert_ne fs _ _ _ (by decide)
        rcases hin : (Value.obj fs).get? "input" with _ | input
        · right
          rw [normalizeChatBody, if_pos hr, h1,
            chatInputStage_of_noinput _ (by rw [hyin, hin]), hym]
          rfl
        · right
          have h2 : chatInputStage ((Value.obj fs).objInsert "messages" (.arr [systemMsgJson inst])) =
              ((Value.obj fs).objInsert "messages" (.arr [systemMsgJson inst])).objInsert "messages"
                (.arr ([systemMsgJson inst] ++ [chatInputUserMsg input])) := by
            apply chatInputStage_of_msgs _ input
            · rw [hyin, hin]
            · rw [hym]
              rfl
          rw [normalizeChatBody, if_pos hr, h1, h2, objInsert_objInsert, get?_objInsert_self]
          rfl
  · left
    rw [normalizeChatBody, if_neg hr]

theorem normalizeChatBody_idem (b : Value) :
    normalizeChatBody (normalizeChatBody b) = normalizeChatBody b := by
  rcases normalizeChatBody_cases b with h | h
  · rw [h]
    exact h
  · exact normalizeChatBody_skip _ h

theorem normalizeCompletionsBody_idem (b : Value) :
    normalizeCompletionsBody (normalizeCompletionsBody b) = normalizeCompletionsBody b := by
  by_cases hcx : isCodexStyle b = true
  · obtain ⟨fs, rfl⟩ : ∃ fs, b = Value.obj fs := by
      rcases hin : b.get? "input" with _ | v
      · rcases hinst : b.get? "instructions" with _ | w
        · unfold isCodexStyle at hcx
          rw [hin, hinst] at hcx
          simp at hcx
        · exact get?_some_obj b _ _ hinst
      · exact get?_some_obj b _ _ hin
    have hins : ∀ (m : Value) (k : String), k ≠ "messages" →
        ((Value.obj fs).objInsert "messages" m).get? k = (Value.obj fs).get? k :=
      fun m k hk => get?_objInsert_ne fs _ k m hk
    have hcc : ∀ m : Value, codexConvert ((Value.obj fs).objInsert "messages" m) =
        codexConvert (.obj fs) := fun m =>
      codexConvert_congr _ _ (hins m _ (by decide)) (hins m _ (by decide))
    have hsn : ∀ m : Value, simpleNormalize ((Value.obj fs).objInsert "messages" m) =
        simpleNormalize (.obj fs) := fun m =>
      simpleNormalize_congr _ _ (hins m _ (by decide)) (hins m _ (by decide))
    have hcsm : ∀ m : Value, isCodexStyle ((Value.obj fs).objInsert "messages" m) =
        isCodexStyle (.obj fs) := fun m =>
      isCodexStyle_congr _ _ (hins m _ (by decide)) (hins m _ (by decide))
    have hget : ∀ m : Value, ((Value.obj fs).objInsert "messages" m).get? "messages" = some m :=
      fun m => get?_objInsert_self fs _ m
    have hcf : (((Value.obj fs).get? "instructions").isSome ||
        ((Value.obj fs).get? "input").isSome) = true := by
      unfold isCodexStyle at hcx
      rw [Bool.or_comm] at hcx
      exact hcx
    have han : ∀ M : List Value,
        alreadyNormalized ((Value.obj fs).objInsert "messages" (.arr M)) = !M.isEmpty := by
      intro M
      unfold alreadyNormalized
      rw [hget]
      rfl
    have hst1 : completionsStage1 (.obj fs) =
        (Value.obj fs).objInsert "messages" (.arr (codexConvert (.obj fs))) :=
      completionsStage1_of_codex _ hcx
    have hst1y : ∀ M : List Value,
        completionsStage1 ((Value.obj fs).objInsert "messages" (.arr M)) =
          (Value.obj fs).objInsert "messages" (.arr (codexConvert (.obj fs))) := by
      intro M
      rw [completionsStage1_of_codex _ (by rw [hcsm]; exact hcx), hcc, objInsert_objInsert]
    have hst2t : completionsStage2 ((Value.obj fs).objInsert "messages" (.arr [])) =
        (Value.obj fs).objInsert "messages" (.arr (simpleNormalize (.obj fs))) := by
      rw [completionsStage2_of_apply _ (by
        rw [hins _ _ (by decide : "instructions" ≠ "messages"),
          hins _ _ (by decide : "input" ≠ "messages"), han, hcf]
        rfl)]
      rw [hsn, objInsert_objInsert]
    have hst2f : ∀ M : List Value, M.isEmpty = false →
        completionsStage2 ((Value.obj fs).objInsert "messages" (.arr M)) =
          (Value.obj fs).objInsert "messages" (.arr M) := by
      intro M hM
      apply completionsStage2_noapply
      rw [hins _ _ (by decide : "instructions" ≠ "messages"),
        hins _ _ (by decide : "input" ≠ "messages"), han, hM]
      simp
    by_cases hM : (codexConvert (.obj fs)).isEmpty = true
    · have hMnil : codexConvert (.obj fs) = [] := list_isEmpty_true hM
      have hfb : normalizeCompletionsBody (.obj fs) =
          (Value.obj fs).objInsert "messages" (.arr (simpleNormalize (.obj fs))) := by
        rw [normalizeCompletionsBody, hst1, hMnil, hst2t]
      rw [hfb, normalizeCompletionsBody, hst1y, hMnil, hst2t]
    · have hMf : (codexConvert (.obj fs)).isEmpty = false := by
        cases h2 : (codexConvert (.obj fs)).isEmpty
        · rfl
        · exact absurd h2 hM
      have hfb : normalizeCompletionsBody (.obj fs) =
          (Value.obj fs).objInsert "messages" (.arr (codexConvert (.obj fs))) := by
        rw [normalizeCompletionsBody, hst1, hst2f _ hMf]
      rw [hfb, normalizeCompletionsBody, hst1y, hst2f _ hMf]
  · have hx : isCodexStyle b = false := by
      cases h2 : isCodexStyle b
      · rfl
      · exact absurd h2 hcx
    have hpair : b.get? "input" = none ∧ b.get? "instructions" = none := by
      unfold isCodexStyle at hx
      constructor
      · rcases hin : b.get? "input" with _ | v
        · rfl
        · rw [hin] at hx
          simp at hx
      · rcases hinst : b.get? "instructions" with _ | w
        · rfl
        · rw [hinst] at hx
          simp at hx
    rcases hp : b.get? "prompt" with _ | p
    · have hfb : normalizeCompletionsBody b = b := by
        rw [normalizeCompletionsBody, completionsStage1_of_plain _ hx hp,
          completionsStage2_noapply _ (by simp [hpair.1, hpair.2])]
      rw [hfb]
      exact hfb
    · obtain ⟨fs, rfl⟩ := get?_some_obj b _ _ hp
      have hwget : ∀ k, k ≠ "messages" → k ≠ "prompt" →
          ((((Value.obj fs).objRemove "prompt").objInsert "messages"
            (.arr [userMsgJson (legacyPromptStr p)])).get? k) = (Value.obj fs).get? k := by
        intro k hk1 hk2
        simp [Value.objRemove, Value.objInsert, Value.get?,
          lookupField_insertField_ne _ _ _ _ hk1, lookupField_removeField_ne _ _ _ hk2]
      have hwinst : (((Value.obj fs).objRemove "prompt").objInsert "messages"
          (.arr [userMsgJson (legacyPromptStr p)])).get? "instructions" = none := by
        rw [hwget _ (by decide) (by decide)]
        exact hpair.2
      have hwin : (((Value.obj fs).objRemove "prompt").objInsert "messages"
          (.arr [userMsgJson (legacyPromptStr p)])).get? "input" = none := by
        rw [hwget _ (by decide) (by decide)]
        exact hpair.1
      have hwprompt : (((Value.obj fs).objRemove "prompt").objInsert "messages"
          (.arr [userMsgJson (legacyPromptStr p)])).get? "prompt" = none := by
        simp [Value.objRemove, Value.objInsert, Value.get?,
          lookupField_insertField_ne _ _ _ _ (by decide : "prompt" ≠ "messages"),
          lookupField_removeField_self]
      have hwx : isCodexStyle (((Value.obj fs).objRemove "prompt").objInsert "messages"
          (.arr [userMsgJson (legacyPromptStr p)])) = false := by
        unfold isCodexStyle
        rw [hwinst, hwin]
        rfl
      have hfb : normalizeCompletionsBody (.obj fs) =
          ((Value.obj fs).objRemove "prompt").objInsert "messages"
            (.arr [userMsgJson (legacyPromptStr p)]) := by
        rw [normalizeCompletionsBody, completionsStage1_of_prompt _ _ hx hp,
          completionsStage2_noapply _ (by simp [hwinst, hwin])]
      rw [hfb, normalizeCompletionsBody, completionsStage1_of_plain _ hwx hwprompt,
        completionsStage2_noapply _ (by simp [hwinst, hwin])]

/-- C6: the pre-parse payload normalization is idempotent on both text
handlers — running it twice yields the same body (hence the same messages
list) as running it once; in particular the chat handler's conversion is
skipped outright when a `messages` key is already present (openai.rs:29-30),
and the completions handler's second-stage conversion is skipped when
`messages` is already a non-empty array (openai.rs:773-781), so no
system/user messages are duplicated. -/
theorem C6_normalization_idempotent (b : Value) :
    normalizeChatBody (normalizeChatBody b) = normalizeChatBody b ∧
    normalizeCompletionsBody (normalizeCompletionsBody b) = normalizeCompletionsBody b ∧
    ((b.get? "messages").isSome = true → normalizeChatBody b = b) ∧
    (alreadyNormalized b = true → completionsStage2 b = b) :=
  ⟨normalizeChatBody_idem b, normalizeCompletionsBody_idem b,
   normalizeChatBody_skip b, completionsStage2_skip b⟩

/-- Witness for C6 at a concrete body that already carries a non-empty
`messages` array alongside Codex fields. -/
theorem C6_normalization_idempotent_witness :
    normalizeChatBody (.obj [("model", .str "m"),
        ("messages", .arr [userMsgJson "hi"]), ("input", .str "x")]) =
      .obj [("model", .str "m"), ("messages", .arr [userMsgJson "hi"]), ("input", .str "x")] ∧
    completionsStage2 (.obj [("model", .str "m"),
        ("messages", .arr [userMsgJson "hi"]), ("input", .str "x")]) =
      .obj [("model", .str "m"), ("messages", .arr [userMsgJson "hi"]), ("input", .str "x")] := by
  have h := C6_normalization_idempotent
    (.obj [("model", .str "m"), ("messages", .arr [userMsgJson "hi"]), ("input", .str "x")])
  exact ⟨h.2.2.1 rfl, h.2.2.2 rfl⟩

/-! ### Orchestrator infrastructure lemmas -/

theorem bool_eq_false {b : Bool} (h : ¬ b = true) : b = false := by
  cases b
  · rfl
  · exact absurd rfl h

theorem chatActualStream_true (req : OpenAIRequest) : chatActualStream req = true := by
  unfold chatActualStream
  cases req.stream <;> rfl

theorem chatMethod_eq (req : OpenAIRequest) : chatMethod req = "streamGenerateContent" := by
  unfold chatMethod
  rw [chatActualStream_true]
  rfl

theorem chatQuery_eq (req : OpenAIRequest) : chatQuery req = some "alt=sse" := by
  unfold chatQuery
  rw [chatActualStream_true]
  rfl

theorem applyDetermine (status : Nat) (et : String) (i maxA : Nat) :
    apply_retry_strategy (determine_retry_strategy status et false) i maxA status =
      (status == 429 || status == 503 || status == 529 || status == 500) := by
  unfold determine_retry_strategy
  by_cases h : (status == 429 || status == 503 || status == 529 || status == 500) = true
  · rw [if_pos h, h]
    rfl
  · rw [if_neg h, bool_eq_false h]
    rfl

theorem runLoop_resp (step : OpenAIRequest → AttemptEnv → Nat → StepResult)
    (exhaust : String → Option String → HttpResponse) (P : HttpResponse → Prop)
    (hstep : ∀ req env i resp evs, step req env i = .done resp evs → P resp)
    (hexh : ∀ err em, P (exhaust err em)) :
    ∀ (r : Nat) (req : OpenAIRequest) (envs : Nat → AttemptEnv) (i : Nat)
      (e0 : String) (m0 : Option String),
      P (runLoop step exhaust r req envs i e0 m0).1 := by
  intro r
  induction r with
  | zero =>
    intro req envs i e0 m0
    exact hexh e0 m0
  | succ n ih =>
    intro req envs i e0 m0
    cases hs : step req (envs i) i with
    | done resp evs =>
      simp only [runLoop, hs]
      exact hstep _ _ _ _ _ hs
    | next req2 evs err email =>
      simp only [runLoop, hs]
      exact ih req2 envs (i + 1) err (some email)

theorem runLoop_events (step : OpenAIRequest → AttemptEnv → Nat → StepResult)
    (exhaust : String → Option String → HttpResponse) (Q : Event → Bool)
    (hstep : ∀ req env i, (stepEventsOf (step req env i)).all Q = true) :
    ∀ (r : Nat) (req : OpenAIRequest) (envs : Nat → AttemptEnv) (i : Nat)
      (e0 : String) (m0 : Option String),
      ((runLoop step exhaust r req envs i e0 m0).2).all Q = true := by
  intro r
  induction r with
  | zero =>
    intro req envs i e0 m0
    rfl
  | succ n ih =>
    intro req envs i e0 m0
    cases hs : step req (envs i) i with
    | done resp evs =>
      simp only [runLoop, hs]
      have h1 := hstep req (envs i) i
      rw [hs] at h1
      exact h1
    | next req2 evs err email =>
      simp only [runLoop, hs]
      rw [List.all_append]
      have h1 := hstep req (envs i) i
      rw [hs] at h1
      rw [show evs.all Q = true from h1, ih req2 envs (i + 1) err (some email)]
      rfl

theorem countUpstream_append (a b : List Event) :
    countUpstream (a ++ b) = countUpstream a + countUpstream b := by
  unfold countUpstream
  rw [List.filter_append, List.length_append]

theorem runLoop_upstream_le (step : OpenAIRequest → AttemptEnv → Nat → StepResult)
    (exhaust : String → Option String → HttpResponse)
    (hstep : ∀ req env i, countUpstream (stepEventsOf (step req env i)) ≤ 1) :
    ∀ (r : Nat) (req : OpenAIRequest) (envs : Nat → AttemptEnv) (i : Nat)
      (e0 : String) (m0 : Option String),
      countUpstream (runLoop step exhaust r req envs i e0 m0).2 ≤ r := by
  intro r
  induction r with
  | zero =>
    intro req envs i e0 m0
    exact Nat.le_refl 0
  | succ n ih =>
    intro req envs i e0 m0
    cases hs : step req (envs i) i with
    | done resp evs =>
      simp only [runLoop, hs]
      have h1 := hstep req (envs i) i
      rw [hs] at h1
      exact Nat.le_trans h1 (by omega)
    | next req2 evs err email =>
      simp only [runLoop, hs]
      rw [countUpstream_append]
      have h1 := hstep req (envs i) i
      rw [hs] at h1
      have h1b : countUpstream evs ≤ 1 := h1
      have h2 := ih req2 envs (i + 1) err (some email)
      omega

theorem runLoop_runsOut (step : OpenAIRequest → AttemptEnv → Nat → StepResult)
    (exhaust : String → Option String → HttpResponse) :
    ∀ (r : Nat) (req : OpenAIRequest) (envs : Nat → AttemptEnv) (i : Nat)
      (e0 : String) (m0 : Option String),
      1 ≤ r → runsOut step r req envs i = true →
      ∃ e err, (runLoop step exhaust r req envs i e0 m0).1 = exhaust err (some e) := by
  intro r
  induction r with
  | zero =>
    intro req envs i e0 m0 hr
    exact absurd hr (by omega)
  | succ n ih =>
    intro req envs i e0 m0 _ hro
    cases hs : step req (envs i) i with
    | done resp evs =>
      simp only [runsOut, hs] at hro
      exact absurd hro (by decide)
    | next req2 evs err email =>
      simp only [runsOut, hs] at hro
      simp only [runLoop, hs]
      cases n with
      | zero => exact ⟨email, err, rfl⟩
      | succ m =>
        obtain ⟨e, er, hh⟩ := ih req2 envs (i + 1) err (some email) (by omega) hro
        exact ⟨e, er, hh⟩

theorem chatStep_done_mapped (collab : Collab) (mapped : String) (maxA : Nat)
    (req : OpenAIRequest) (env : AttemptEnv) (i : Nat) (resp : HttpResponse) (evs : List Event)
    (hs : chatStep collab mapped maxA req env i = .done resp evs) (h500 : resp.status ≠ 500) :
    ("X-Mapped-Model", mapped) ∈ resp.headers := by
  cases env with
  | tokenErr e =>
    simp only [chatStep] at hs
    injection hs with h1 h2
    subst h1
    simp
  | netErr t e =>
    simp only [chatStep] at hs
    simp at hs
  | http t status ra et stream collect jsonBody =>
    simp only [chatStep, chatActualStream_true, eq_self_iff_true, if_true] at hs
    by_cases hsucc : isSuccessStatus status = true
    · rw [if_pos hsucc] at hs
      cases hp : peek stream with
      | retry r =>
        simp only [hp] at hs
        simp at hs
      | success f rest =>
        simp only [hp] at hs
        by_cases hstr : req.stream = true
        · rw [if_pos hstr] at hs
          injection hs with h1 h2
          subst h1
          simp [sseHeadersChat]
        · rw [if_neg hstr] at hs
          cases hc : collect with
          | ok v =>
            simp only [hc] at hs
            injection hs with h1 h2
            subst h1
            simp [acctMappedHeaders]
          | error e2 =>
            simp only [hc] at hs
            injection hs with h1 h2
            subst h1
            exact absurd rfl h500
    · rw [if_neg hsucc] at hs
      rw [applyDetermine] at hs
      by_cases hrl : (status == 429 || status == 503 || status == 529 || status == 500) = true
      · rw [if_pos hrl] at hs
        simp at hs
      · rw [if_neg hrl] at hs
        by_cases hsig : (status == 400 && containsTrigger et) = true
        · rw [if_pos hsig] at hs
          simp at hs
        · rw [if_neg hsig] at hs
          by_cases h43 : (status == 403 || status == 401) = true
          · rw [if_pos h43] at hs
            simp only [apply_retry_strategy] at hs
            simp at hs
          · rw [if_neg h43] at hs
            injection hs with h1 h2
            subst h1
            simp [acctMappedHeaders]

theorem chatStep_events_ok (collab : Collab) (mapped : String) (maxA : Nat)
    (req : OpenAIRequest) (env : AttemptEnv) (i : Nat) :
    (stepEventsOf (chatStep collab mapped maxA req env i)).all upstreamEventOk = true := by
  cases env with
  | tokenErr e => rfl
  | netErr t e =>
    simp only [chatStep, stepEventsOf, chatMethod_eq, chatQuery_eq]
    rfl
  | http t status ra et stream collect jsonBody =>
    simp only [chatStep, chatActualStream_true, eq_self_iff_true, if_true,
      chatMethod_eq, chatQuery_eq]
    repeat' split
    all_goals rfl

theorem codexStep_events_ok (collab : Collab) (mapped : String) (maxA : Nat)
    (req : OpenAIRequest) (env : AttemptEnv) (i : Nat) :
    (stepEventsOf (codexStep collab mapped maxA req env i)).all upstreamEventOk = true := by
  cases env with
  | tokenErr e => rfl
  | netErr t e =>
    simp only [codexStep, stepEventsOf, chatMethod_eq, chatQuery_eq]
    rfl
  | http t status ra et stream collect jsonBody =>
    simp only [codexStep, chatActualStream_true, eq_self_iff_true, if_true,
      chatMethod_eq, chatQuery_eq]
    repeat' split
    all_goals rfl

theorem chatStep_upstream_le (collab : Collab) (mapped : String) (maxA : Nat)
    (req : OpenAIRequest) (env : AttemptEnv) (i : Nat) :
    countUpstream (stepEventsOf (chatStep collab mapped maxA req env i)) ≤ 1 := by
  cases env with
  | tokenErr e =>
    simp [chatStep, stepEventsOf, countUpstream, isUpstreamEvent, List.filter]
  | netErr t e =>
    simp [chatStep, stepEventsOf, countUpstream, isUpstreamEvent, List.filter]
  | http t status ra et stream collect jsonBody =>
    simp only [chatStep, chatActualStream_true, eq_self_iff_true, if_true]
    repeat' split
    all_goals simp [stepEventsOf, countUpstream, isUpstreamEvent, List.filter]

theorem chatStep_mark_count (collab : Collab) (mapped : String) (maxA : Nat)
    (req : OpenAIRequest) (t : Ticket) (status : Nat) (ra : Option String) (et : String)
    (stream : List StreamItem) (collect jsonBody : Except String Value) (i : Nat)
    (hfail : isSuccessStatus status = false) :
    countMarkRL (chatStepEvents collab mapped maxA req
        (.http t status ra et stream collect jsonBody) i) =
      (if rateLimitSet status = true then 1 else 0) := by
  unfold chatStepEvents
  simp only [chatStep, chatActualStream_true, eq_self_iff_true, if_true, hfail]
  by_cases hrl : rateLimitSet status = true
  · simp only [hrl, if_true, if_pos hrl]
    repeat' split
    all_goals try (exact absurd (by assumption : false = true) (by decide))
    all_goals simp [stepEventsOf, countMarkRL, List.filter, isMarkRL]
  · have hrlf := bool_eq_false hrl
    simp only [hrlf, if_neg hrl]
    repeat' split
    all_goals try (exact absurd (by assumption : false = true) (by decide))
    all_goals simp [stepEventsOf, countMarkRL, List.filter, isMarkRL]

theorem codexStep_mark_count (collab : Collab) (mapped : String) (maxA : Nat)
    (req : OpenAIRequest) (t : Ticket) (status : Nat) (ra : Option String) (et : String)
    (stream : List StreamItem) (collect jsonBody : Except String Value) (i : Nat)
    (hfail : isSuccessStatus status = false) :
    countMarkRL (codexStepEvents collab mapped maxA req
        (.http t status ra et stream collect jsonBody) i) =
      (if rateLimitSet status = true then 1 else 0) := by
  unfold codexStepEvents
  simp only [codexStep, chatActualStream_true, eq_self_iff_true, if_true, hfail]
  by_cases hrl : rateLimitSet status = true
  · simp only [hrl, if_true, if_pos hrl]
    repeat' split
    all_goals try (exact absurd (by assumption : false = true) (by decide))
    all_goals simp [stepEventsOf, countMarkRL, List.filter, isMarkRL]
  · have hrlf := bool_eq_false hrl
    simp only [hrlf, if_neg hrl]
    repeat' split
    all_goals try (exact absurd (by assumption : false = true) (by decide))
    all_goals simp [stepEventsOf, countMarkRL, List.filter, isMarkRL]

theorem chatStep_mark_fields (collab : Collab) (mapped : String) (maxA : Nat)
    (req : OpenAIRequest) (t : Ticket) (status : Nat) (ra : Option String) (et : String)
    (stream : List StreamItem) (collect jsonBody : Except String Value) (i : Nat) :
    (chatStepEvents collab mapped maxA req
        (.http t status ra et stream collect jsonBody) i).all (markOkFor t.email status) = true := by
  unfold chatStepEvents
  simp only [chatStep, chatActualStream_true, eq_self_iff_true, if_true]
  repeat' split
  all_goals simp [stepEventsOf, markOkFor, List.all]

theorem exhaustedResponse_mapped (mapped err : String) (em : Option String) :
    ("X-Mapped-Model", mapped) ∈ (exhaustedResponse mapped err em).headers := by
  cases em <;> simp [exhaustedResponse]

/-! ### Claim C7 — rate-limit marking -/

/-- C7: on an upstream HTTP failure observed on the acquired account, each
text handler issues exactly one `mark_rate_limited` call iff the status is
one of {429, 500, 503, 529}; every mark event names that account and status,
and 401/403 never mark. -/
theorem C7_mark_rate_limited (collab : Collab) (mapped : String) (maxA : Nat)
    (req : OpenAIRequest) (t : Ticket) (status : Nat) (ra : Option String) (et : String)
    (stream : List StreamItem) (collect jsonBody : Except String Value) (i : Nat)
    (hfail : isSuccessStatus status = false) :
    countMarkRL (chatStepEvents collab mapped maxA req
        (.http t status ra et stream collect jsonBody) i) =
      (if rateLimitSet status = true then 1 else 0) ∧
    countMarkRL (codexStepEvents collab mapped maxA req
        (.http t status ra et stream collect jsonBody) i) =
      (if rateLimitSet status = true then 1 else 0) ∧
    (rateLimitSet status = true ↔
      (status = 429 ∨ status = 500 ∨ status = 503 ∨ status = 529)) ∧
    rateLimitSet 401 = false ∧ rateLimitSet 403 = false ∧
    (chatStepEvents collab mapped maxA req
        (.http t status ra et stream collect jsonBody) i).all (markOkFor t.email status) = true := by
  refine ⟨chatStep_mark_count collab mapped maxA req t status ra et stream collect jsonBody i hfail,
    codexStep_mark_count collab mapped maxA req t status ra et stream collect jsonBody i hfail,
    ?_, rfl, rfl,
    chatStep_mark_fields collab mapped maxA req t status ra et stream collect jsonBody i⟩
  unfold rateLimitSet
  simp only [Bool.or_eq_true, beq_iff_eq]
  tauto

/-- Witness for C7: a 429 failure marks exactly once. -/
theorem C7_mark_rate_limited_witness :
    countMarkRL (chatStepEvents collabTriv "m" 2 reqW
      (.http tickA 429 none "limited" [] (.error "e") (.error "e")) 0) = 1 := by
  have h := C7_mark_rate_limited collabTriv "m" 2 reqW tickA 429 none "limited" []
    (.error "e") (.error "e") 0 rfl
  simpa using h.1

/-! ### Claim C2 — the X-Mapped-Model header -/

/-- C2 counterexample: a successful images-generations response (status 200)
carries only `X-Account-Email` — no response of this core endpoint ever
carries `X-Mapped-Model`, refuting "every response to every core endpoint
carries X-Mapped-Model". -/
theorem C2_counterexample :
    (handle_images_generations ⟨.ok tickA, fun _ => .ok (.ok imgOkResp), 5⟩
        (.obj [("prompt", .str "a cat")])).1.status = 200 ∧
    (handle_images_generations ⟨.ok tickA, fun _ => .ok (.ok imgOkResp), 5⟩
        (.obj [("prompt", .str "a cat")])).1.headers.map Prod.fst = ["X-Account-Email"] :=
  ⟨rfl, rfl⟩

/-- C2 (amended): for chat-completions requests that parse, every response
except the 500 stream-collection-error response carries
`X-Mapped-Model = resolve_model_route(req.model, mapping)`; the
images-generations handler never attaches `X-Mapped-Model` to any response. -/
theorem C2_mapped_model_header (collab : Collab) (mapping : List (String × String)) (pool : Nat)
    (envs : Nat → AttemptEnv) (body : Value) (req0 : OpenAIRequest)
    (hp : parseOpenAIRequest (normalizeChatBody body) = some req0) :
    ((handle_chat_completions collab mapping pool envs body).1.status ≠ 500 →
      ("X-Mapped-Model", resolve_model_route (injectIfEmpty req0).model mapping) ∈
        (handle_chat_completions collab mapping pool envs body).1.headers) ∧
    (∀ (envI : ImagesEnv) (bodyI : Value),
      "X-Mapped-Model" ∉ ((handle_images_generations envI bodyI).1.headers.map Prod.fst)) := by
  constructor
  · simp only [handle_chat_completions, hp]
    exact runLoop_resp _ _
      (fun resp => resp.status ≠ 500 →
        ("X-Mapped-Model", resolve_model_route (injectIfEmpty req0).model mapping) ∈ resp.headers)
      (fun _ _ _ resp evs hsd h500 =>
        chatStep_done_mapped _ _ _ _ _ _ _ _ hsd h500)
      (fun err em _ => exhaustedResponse_mapped _ _ _) _ _ _ _ _ _
  · intro envI bodyI
    simp only [handle_images_generations]
    repeat' split
    all_goals simp

/-- Witness for C2 (amended) at a concrete parsed request. -/
theorem C2_mapped_model_header_witness :
    ("X-Mapped-Model", "m") ∈ (handle_chat_completions collabTriv [] 1 sigEnvs sigBody).1.headers := by
  have h := (C2_mapped_model_header collabTriv [] 1 sigEnvs sigBody reqSig rfl).1
  exact h (by decide)

/-! ### Claim C3 — the always-stream policy -/

/-- C3: regardless of the client's `stream` flag, the upstream is always
invoked with the streaming method and `alt=sse` (every upstream event of
both text handlers' full runs uses them); the flag only chooses between SSE
passthrough and stream-to-JSON collection on the success path. -/
theorem C3_always_streaming (collab : Collab) (mapping : List (String × String)) (pool : Nat)
    (envs : Nat → AttemptEnv) (body : Value) (req : OpenAIRequest) :
    chatActualStream req = true ∧
    chatMethod req = "streamGenerateContent" ∧
    chatQuery req = some "alt=sse" ∧
    ((handle_chat_completions collab mapping pool envs body).2).all upstreamEventOk = true ∧
    ((handle_completions collab mapping pool envs body).2).all upstreamEventOk = true ∧
    (∀ (mapped : String) (maxA : Nat) (t : Ticket) (ra : Option String) (et : String)
        (stream : List StreamItem) (v : Value) (jsonBody : Except String Value)
        (f : String) (rest : List StreamItem) (i : Nat),
      peek stream = .success f rest →
      (req.stream = true →
        chatStep collab mapped maxA req (.http t 200 ra et stream (.ok v) jsonBody) i =
          .done ⟨200, sseHeadersChat t.email mapped, .sse (.chunk f :: rest)⟩
            [Event.getToken (collab.resolveRequestType req.model mapped req.tools)
                (decide (i > 0)) (collab.extractSession req) mapped,
             Event.upstream (chatMethod req) (chatQuery req) t.email]) ∧
      (req.stream = false →
        chatStep collab mapped maxA req (.http t 200 ra et stream (.ok v) jsonBody) i =
          .done ⟨200, acctMappedHeaders t.email mapped, .json v⟩
            [Event.getToken (collab.resolveRequestType req.model mapped req.tools)
                (decide (i > 0)) (collab.extractSession req) mapped,
             Event.upstream (chatMethod req) (chatQuery req) t.email])) := by
  refine ⟨chatActualStream_true req, chatMethod_eq req, chatQuery_eq req, ?_, ?_, ?_⟩
  · cases hp : parseOpenAIRequest (normalizeChatBody body) with
    | none =>
      simp only [handle_chat_completions, hp]
      rfl
    | some req0 =>
      simp only [handle_chat_completions, hp]
      exact runLoop_events _ _ _
        (fun r e i2 => chatStep_events_ok collab _ _ r e i2) _ _ _ _ _ _
  · cases hp : parseOpenAIRequest (normalizeCompletionsBody body) with
    | none =>
      simp only [handle_completions, hp]
      rfl
    | some req0 =>
      simp only [handle_completions, hp]
      exact runLoop_events _ _ _
        (fun r e i2 => codexStep_events_ok collab _ _ r e i2) _ _ _ _ _ _
  · intro mapped maxA t ra et stream v jsonBody f rest i hpk
    constructor
    · intro hstr
      simp only [chatStep, chatActualStream_true, eq_self_iff_true, if_true, hpk, hstr]
      rw [if_pos (show isSuccessStatus 200 = true from rfl)]
    · intro hstr
      simp only [chatStep, chatActualStream_true, eq_self_iff_true, if_true, hpk, hstr]
      rw [if_pos (show isSuccessStatus 200 = true from rfl)]
      rfl

/-- Witness for C3 at a concrete successful streaming attempt. -/
theorem C3_always_streaming_witness :
    chatStep collabTriv "m" 2 reqW
        (.http tickA 200 none "" [.chunk "data: hi"] (.ok .null) (.error "e")) 0 =
      .done ⟨200, sseHeadersChat "a@x" "m", .sse [.chunk "data: hi"]⟩
        [Event.getToken "chat" false "sess" "m",
         Event.upstream "streamGenerateContent" (some "alt=sse") "a@x"] := by
  have h := (C3_always_streaming collabTriv [] 1 (fun _ => .tokenErr "x") Value.null reqW).2.2.2.2.2
    "m" 2 tickA none "" [.chunk "data: hi"] Value.null (.error "e") "data: hi" [] 0 (by rfl)
  exact h.1 rfl

/-! ### Claim C4 — the retry budget and exhaustion -/

/-- C4: `max_attempts = max(2, min(3, pool_size+1))` (so pool 0 gives 2); a
chat-completions run makes at most `max_attempts` upstream calls; and when
every attempt continues (the budget exhausts), the handler returns 429 with
body `All accounts exhausted. Last error: <last_error>`, `X-Mapped-Model`,
and the `X-Account-Email` of an acquired account. -/
theorem C4_retry_budget (collab : Collab) (mapping : List (String × String)) (pool : Nat)
    (envs : Nat → AttemptEnv) (body : Value) :
    maxAttemptsOf pool = max 2 (min 3 (pool + 1)) ∧
    maxAttemptsOf 0 = 2 ∧
    countUpstream (handle_chat_completions collab mapping pool envs body).2 ≤ maxAttemptsOf pool ∧
    (∀ req0 : OpenAIRequest, parseOpenAIRequest (normalizeChatBody body) = some req0 →
      runsOut (chatStep collab (resolve_model_route (injectIfEmpty req0).model mapping)
          (maxAttemptsOf pool)) (maxAttemptsOf pool) (injectIfEmpty req0) envs 0 = true →
      ∃ e err, (handle_chat_completions collab mapping pool envs body).1 =
        ⟨429, [("X-Account-Email", e),
               ("X-Mapped-Model", resolve_model_route (injectIfEmpty req0).model mapping)],
         .text ("All accounts exhausted. Last error: " ++ err)⟩) := by
  refine ⟨?_, rfl, ?_, ?_⟩
  · unfold maxAttemptsOf MAX_RETRY_ATTEMPTS
    exact Nat.max_comm _ _
  · cases hp : parseOpenAIRequest (normalizeChatBody body) with
    | none =>
      simp only [handle_chat_completions, hp]
      have : countUpstream ([] : List Event) = 0 := rfl
      simp only [this]
      exact Nat.zero_le _
    | some req0 =>
      simp only [handle_chat_completions, hp]
      exact runLoop_upstream_le _ _
        (fun r e i2 => chatStep_upstream_le collab _ _ r e i2) _ _ _ _ _ _
  · intro req0 hp hro
    simp only [handle_chat_completions, hp]
    have hge : 1 ≤ maxAttemptsOf pool := by
      have h2 : 2 ≤ max (min MAX_RETRY_ATTEMPTS (pool + 1)) 2 := Nat.le_max_right _ _
      unfold maxAttemptsOf
      omega
    obtain ⟨e, err, hh⟩ := runLoop_runsOut
      (chatStep collab (resolve_model_route (injectIfEmpty req0).model mapping) (maxAttemptsOf pool))
      (exhaustedResponse (resolve_model_route (injectIfEmpty req0).model mapping))
      (maxAttemptsOf pool) (injectIfEmpty req0) envs 0 "" none hge hro
    exact ⟨e, err, hh⟩

/-- Witness for C4: with an empty pool and persistent network errors the
budget of 2 exhausts and the handler answers 429. -/
theorem C4_retry_budget_witness :
    ∃ e err, (handle_chat_completions collabTriv [] 0 exhEnvs exhBody).1 =
      ⟨429, [("X-Account-Email", e), ("X-Mapped-Model", "m")],
       .text ("All accounts exhausted. Last error: " ++ err)⟩ := by
  have h := (C4_retry_budget collabTriv [] 0 exhEnvs exhBody).2.2.2 reqExh rfl (by rfl)
  exact h

/-! ### Claim C1 — signature recovery -/

/-- C1 counterexample: a pool of one extra account, attempt 0 failing with
HTTP 400 and a signature-trigger body.  The run's `get_token` force-rotate
flags are `[false, true]`: the follow-up attempt after the
signature-recovery `continue` calls `get_token` with
`force_rotate = (attempt > 0) = true`, which by the token-manager contract
returns a *different* account when one is available — refuting
"signature-recovery retries never rotate accounts / the retry requests a
token for the same account". -/
theorem C1_counterexample :
    getTokenForces (handle_chat_completions collabTriv [] 1 sigEnvs sigBody).2 = [false, true] ∧
    sigEnvs 0 = .http tickA 400 none "Invalid `signature` detected" [] (.error "e") (.error "e") ∧
    containsTrigger "Invalid `signature` detected" = true ∧
    (handle_chat_completions collabTriv [] 1 sigEnvs sigBody).1.status = 200 :=
  ⟨rfl, rfl, rfl, rfl⟩

/-- C1 (amended): on a 400 failure whose body contains a trigger substring,
the chat handler appends the recovery prompt to the *last* message when its
role is `user`, preserving content shape — string content is extended in
place, a block list gains one text block — and continues without returning;
but the subsequent attempt (index `i+1`) issues its `get_token` call with
`force_rotate = true`, so the account is rotated when another is available
rather than pinned. -/
theorem C1_signature_retry (collab : Collab) (mapped : String) (maxA : Nat)
    (req : OpenAIRequest) (t : Ticket) (ra : Option String) (et : String)
    (stream : List StreamItem) (collect jsonBody : Except String Value) (i : Nat)
    (htrig : containsTrigger et = true) :
    chatStep collab mapped maxA req (.http t 400 ra et stream collect jsonBody) i =
      .next (appendRepair req)
        [Event.getToken (collab.resolveRequestType req.model mapped req.tools) (decide (i > 0))
            (collab.extractSession req) mapped,
         Event.upstream (chatMethod req) (chatQuery req) t.email]
        ("HTTP " ++ toString 400 ++ ": " ++ et) t.email ∧
    (∀ (s : String) (ms : List OpenAIMessage),
      req.messages = ms ++ [⟨"user", some (.str s), none, none, none, none⟩] →
      (appendRepair req).messages =
        ms ++ [⟨"user", some (.str (s ++ repairPrompt)), none, none, none, none⟩]) ∧
    (∀ (bs : List OpenAIContentBlock) (ms : List OpenAIMessage),
      req.messages = ms ++ [⟨"user", some (.arr bs), none, none, none, none⟩] →
      (appendRepair req).messages =
        ms ++ [⟨"user", some (.arr (bs ++ [.text repairPrompt])), none, none, none, none⟩]) ∧
    (∀ (req2 : OpenAIRequest) (env2 : AttemptEnv),
      (getTokenForces (chatStepEvents collab mapped maxA req2 env2 (i + 1))).head? = some true) := by
  refine ⟨?_, ?_, ?_, ?_⟩
  · simp only [chatStep, chatActualStream_true, eq_self_iff_true, if_true]
    rw [if_neg (show ¬ isSuccessStatus 400 = true by decide)]
    rw [applyDetermine]
    rw [if_neg (show ¬ ((400 == 429 || 400 == 503 || 400 == 529 || 400 == 500) = true) by decide)]
    rw [if_pos (show ((400 == 400) && containsTrigger et) = true by rw [htrig]; rfl)]
    rfl
  · intro s ms hmsg
    have hlast : req.messages.getLast? = some ⟨"user", some (.str s), none, none, none, none⟩ := by
      rw [hmsg]
      exact List.getLast?_concat _
    unfold appendRepair
    simp only [hlast]
    rw [hmsg, List.dropLast_concat]
    rw [if_pos (show (("user" : String) == "user") = true from rfl)]
  · intro bs ms hmsg
    have hlast : req.messages.getLast? = some ⟨"user", some (.arr bs), none, none, none, none⟩ := by
      rw [hmsg]
      exact List.getLast?_concat _
    unfold appendRepair
    simp only [hlast]
    rw [hmsg, List.dropLast_concat]
    rw [if_pos (show (("user" : String) == "user") = true from rfl)]
  · intro req2 env2
    have hfs : decide (i + 1 > 0) = true := by simp
    cases env2 with
    | tokenErr e =>
      simp [chatStepEvents, chatStep, stepEventsOf, getTokenForces, hfs]
    | netErr t2 e =>
      simp [chatStepEvents, chatStep, stepEventsOf, getTokenForces, hfs]
    | http t2 status2 ra2 et2 stream2 collect2 jsonBody2 =>
      simp only [chatStepEvents, chatStep, chatActualStream_true, eq_self_iff_true, if_true]
      by_cases h1 : isSuccessStatus status2 = true
      · rw [if_pos h1]
        cases hp2 : peek stream2 with
        | retry r =>
          simp [stepEventsOf, getTokenForces, hfs]
        | success f2 rest2 =>
          simp only [hp2]
          by_cases h2 : req2.stream = true
          · rw [if_pos h2]
            simp [stepEventsOf, getTokenForces, hfs]
          · rw [if_neg h2]
            cases collect2 <;> simp [stepEventsOf, getTokenForces, hfs]
      · rw [if_neg h1]
        by_cases h2 : apply_retry_strategy (determine_retry_strategy status2 et2 false)
            (i + 1) maxA status2 = true
        · rw [if_pos h2]
          simp [stepEventsOf, getTokenForces, hfs]
        · rw [if_neg h2]
          by_cases h3 : ((status2 == 400) && containsTrigger et2) = true
          · rw [if_pos h3]
            simp [stepEventsOf, getTokenForces, hfs]
          · rw [if_neg h3]
            by_cases h4 : ((status2 == 403) || (status2 == 401)) = true
            · rw [if_pos h4]
              rw [if_pos (show apply_retry_strategy (.fixedDelay 200) (i + 1) maxA status2 = true
                from rfl)]
              simp [stepEventsOf, getTokenForces, hfs]
            · rw [if_neg h4]
              simp [stepEventsOf, getTokenForces, hfs]

/-- Witness for C1 (amended): a concrete signature-400 attempt on a request
whose last message is a user message with string content. -/
theorem C1_signature_retry_witness :
    chatStep collabTriv "m" 2 reqW
        (.http tickA 400 none "thinking.signature bad" [] (.error "e") (.error "e")) 0 =
      .next (appendRepair reqW)
        [Event.getToken "chat" false "sess" "m",
         Event.upstream "streamGenerateContent" (some "alt=sse") "a@x"]
        ("HTTP " ++ toString 400 ++ ": " ++ "thinking.signature bad") "a@x" ∧
    (appendRepair reqW).messages =
      [⟨"user", some (.str ("hi" ++ repairPrompt)), none, none, none, none⟩] := by
  have h := C1_signature_retry collabTriv "m" 2 reqW tickA none "thinking.signature bad" []
    (.error "e") (.error "e") 0 (by rfl)
  exact ⟨h.1, h.2.1 "hi" [] rfl⟩

/-! ### Claim C5 — the non-empty messages invariant -/

/-- C5: after normalization and parsing, on either text handler, the message
list handed to the retry loop is never empty: an empty parsed list is
replaced by the single fallback message `{role:"user", content:" "}` before
any translation or upstream call. -/
theorem C5_messages_nonempty (bodyA bodyB : Value) (reqA reqB : OpenAIRequest) :
    (parseOpenAIRequest (normalizeChatBody bodyA) = some reqA →
      (injectIfEmpty reqA).messages ≠ []) ∧
    (parseOpenAIRequest (normalizeCompletionsBody bodyB) = some reqB →
      (injectIfEmpty reqB).messages ≠ []) ∧
    (∀ req : OpenAIRequest, req.messages = [] →
      injectIfEmpty req = { req with messages := [spaceMessage] }) ∧
    spaceMessage.role = "user" ∧ spaceMessage.content = some (.str " ") := by
  have key : ∀ req : OpenAIRequest, (injectIfEmpty req).messages ≠ [] := by
    intro req
    unfold injectIfEmpty
    by_cases h : req.messages.isEmpty = true
    · rw [if_pos h]
      simp
    · rw [if_neg h]
      intro hc
      rw [hc] at h
      exact h rfl
  refine ⟨fun _ => key reqA, fun _ => key reqB, ?_, rfl, rfl⟩
  intro req h
  unfold injectIfEmpty
  rw [if_pos (show req.messages.isEmpty = true by rw [h]; rfl)]

/-- Witness for C5: a body with no `messages` parses to the empty list and
receives the fallback message. -/
theorem C5_messages_nonempty_witness :
    (injectIfEmpty reqExh).messages ≠ [] :=
  (C5_messages_nonempty exhBody exhBody reqExh reqExh).1 rfl

/-! ### Claim C8 — the peek filter -/

theorem peek_success_shape (f : String) (rest : List StreamItem) :
    ∀ cs : List StreamItem, peek cs = .success f rest →
    ∃ dropped : List String,
      cs = dropped.map StreamItem.chunk ++ (StreamItem.chunk f :: rest) ∧
      (∀ s ∈ dropped, s.isEmpty = true ∨ isHeartbeatChunk s = true) ∧
      f.isEmpty = false ∧ isHeartbeatChunk f = false ∧ strContains f "\"error\"" = false := by
  intro cs
  induction cs with
  | nil =>
    intro h
    simp [peek] at h
  | cons c t ih =>
    intro h
    cases c with
    | chunk s =>
      by_cases he : s.isEmpty = true
      · simp only [peek, he, if_true] at h
        obtain ⟨d, hd, hall, hrest⟩ := ih h
        refine ⟨s :: d, ?_, ?_, hrest⟩
        · simp [hd]
        · intro x hx
          rcases List.mem_cons.mp hx with hx1 | hx2
          · subst hx1
            exact Or.inl he
          · exact hall x hx2
      · have hef := bool_eq_false he
        by_cases hh : isHeartbeatChunk s = true
        · simp only [peek, hef, hh] at h
          simp only [Bool.false_eq_true, if_false, if_true] at h
          obtain ⟨d, hd, hall, hrest⟩ := ih h
          refine ⟨s :: d, ?_, ?_, hrest⟩
          · simp [hd]
          · intro x hx
            rcases List.mem_cons.mp hx with hx1 | hx2
            · subst hx1
              exact Or.inr hh
            · exact hall x hx2
        · have hhf := bool_eq_false hh
          by_cases herr : strContains s "\"error\"" = true
          · simp [peek, hef, hhf, herr] at h
          · have herrf := bool_eq_false herr
            simp [peek, hef, hhf, herrf] at h
            obtain ⟨hf, ht⟩ := h
            subst hf
            subst ht
            exact ⟨[], rfl, by intro x hx; simp at hx, hef, hhf, herrf⟩
    | ioErr e =>
      simp [peek] at h
    | timedOut =>
      simp [peek] at h

/-- C8: during the stream peek, empty chunks and heartbeat chunks (trimmed
text starting with `:` or `data: :`) are dropped and never forwarded; the
first chunk passing the filters becomes `first_data_chunk`, and on success
the emitted body is exactly that chunk prepended once to the untouched
remaining stream — nothing reordered or duplicated — as realized by the
chat handler's SSE response. -/
theorem C8_peek_filter (cs : List StreamItem) (f : String) (rest : List StreamItem)
    (h : peek cs = .success f rest) :
    (∃ dropped : List String,
      cs = dropped.map StreamItem.chunk ++ (StreamItem.chunk f :: rest) ∧
      (∀ s ∈ dropped, s.isEmpty = true ∨ isHeartbeatChunk s = true)) ∧
    f.isEmpty = false ∧ isHeartbeatChunk f = false ∧
    (∀ (collab : Collab) (mapped : String) (maxA : Nat) (req : OpenAIRequest)
        (t : Ticket) (ra : Option String) (et : String)
        (collect jsonBody : Except String Value) (i : Nat), req.stream = true →
      ∃ evs, chatStep collab mapped maxA req (.http t 200 ra et cs collect jsonBody) i =
        .done ⟨200, sseHeadersChat t.email mapped, .sse (StreamItem.chunk f :: rest)⟩ evs) := by
  obtain ⟨d, hd, hall, hfe, hfh, hferr⟩ := peek_success_shape f rest cs h
  refine ⟨⟨d, hd, hall⟩, hfe, hfh, ?_⟩
  intro collab mapped maxA req t ra et collect jsonBody i hstr
  refine ⟨[Event.getToken (collab.resolveRequestType req.model mapped req.tools) (decide (i > 0))
      (collab.extractSession req) mapped,
    Event.upstream (chatMethod req) (chatQuery req) t.email], ?_⟩
  simp only [chatStep, chatActualStream_true, eq_self_iff_true, if_true, h, hstr]
  rw [if_pos (show isSuccessStatus 200 = true from rfl)]

/-- Witness for C8: a stream opening with an empty chunk and a heartbeat. -/
theorem C8_peek_filter_witness :
    ∃ dropped : List String,
      [StreamItem.chunk "", StreamItem.chunk ": ping", StreamItem.chunk "data: hello",
        StreamItem.chunk "x"] =
        dropped.map StreamItem.chunk ++ (StreamItem.chunk "data: hello" :: [StreamItem.chunk "x"]) ∧
      ∀ s ∈ dropped, s.isEmpty = true ∨ isHeartbeatChunk s = true :=
  (C8_peek_filter
    [StreamItem.chunk "", StreamItem.chunk ": ping", StreamItem.chunk "data: hello",
     StreamItem.chunk "x"] "data: hello" [StreamItem.chunk "x"] rfl).1

/-! ### Claim C9 — local_shell_call command wrapping -/

/-- C9: a Codex `local_shell_call` input item becomes an assistant message
with a single tool call named `shell`; a scalar string
`action.exec.command` is wrapped into a one-element array in the serialized
arguments, and an array command is passed through unchanged (concretely,
`"ls"` serializes to `{"command":["ls"]}`). -/
theorem C9_local_shell_command_array (m : List (String × String)) (cid s : String)
    (cmds : List Value) :
    pass2Item m (.obj [("type", .str "local_shell_call"), ("call_id", .str cid),
        ("action", .obj [("exec", .obj [("command", .str s)])])]) =
      [.obj [("role", .str "assistant"),
        ("tool_calls", .arr [.obj [("id", .str cid), ("type", .str "function"),
          ("function", .obj [("name", .str "shell"),
            ("arguments", .str (Value.toJsonString (.obj [("command", .arr [.str s])])))])]])]] ∧
    pass2Item m (.obj [("type", .str "local_shell_call"), ("call_id", .str cid),
        ("action", .obj [("exec", .obj [("command", .arr cmds)])])]) =
      [.obj [("role", .str "assistant"),
        ("tool_calls", .arr [.obj [("id", .str cid), ("type", .str "function"),
          ("function", .obj [("name", .str "shell"),
            ("arguments", .str (Value.toJsonString (.obj [("command", .arr cmds)])))])]])]] ∧
    Value.toJsonString (.obj [("command", .arr [.str "ls"])]) = "\x7b\"command\":[\"ls\"]\x7d" :=
  ⟨rfl, rfl, rfl⟩

/-! ### Claim C10 — images with n = 0 -/

/-- C10: an images-generations request with `n = 0` makes no upstream call,
collects empty image and error lists, and returns `502 Bad Gateway` with
body `No images generated`. -/
theorem C10_zero_images (env : ImagesEnv) (body : Value) (p : String) (t : Ticket)
    (hp : (body.get? "prompt").bind Value.asStr = some p)
    (hn : (body.get? "n").bind Value.asU64 = some 0)
    (ht : env.tokenRes = .ok t) :
    (handle_images_generations env body).1 = ⟨502, [], .text "No images generated"⟩ ∧
    (handle_images_generations env body).2 = [] ∧
    collectImages (((body.get? "response_format").bind Value.asStr).getD "b64_json")
      ((List.range 0).map env.tasks) = ([], []) := by
  have hh : handle_images_generations env body = (⟨502, [], .text "No images generated"⟩, []) := by
    unfold handle_images_generations
    simp only [hp, hn, ht]
    rfl
  rw [hh]
  exact ⟨rfl, rfl, rfl⟩

/-- Witness for C10 at a concrete `n = 0` request. -/
theorem C10_zero_images_witness :
    (handle_images_generations ⟨.ok tickA, fun _ => .ok (.ok imgOkResp), 5⟩
        (.obj [("prompt", .str "a cat"), ("n", .num 0)])).1 =
      ⟨502, [], .text "No images generated"⟩ := by
  have h := C10_zero_images ⟨.ok tickA, fun _ => .ok (.ok imgOkResp), 5⟩
    (.obj [("prompt", .str "a cat"), ("n", .num 0)]) "a cat" tickA rfl rfl rfl
  exact h.1
